import Mathlib

/-!
# Verification of the balloon-popper game server

A shallow embedding of the balloon-popper multiplayer game server
(`src/common.mts`: the wire-codec struct definitions and the server's
connection handler, message handler and tick loop) together with proofs
settling the specification claims about it.

Modelling conventions:
* A wire buffer (JS `ArrayBuffer` viewed through a `DataView`) is a
  `List Nat` of bytes.  `setUint8` stores `v % 256` (JS `ToUint8` on
  non-negative integers); `setUint32`/`getUint32` are little-endian, as
  in the source (`view.setUint32(offset, value, true)`).
* Float32 fields (`x`, `y` of `BalloonCreatedStruct`) are modelled at the
  bit-pattern level: the 32-bit pattern occupying the field's four bytes.
  No claim constrains the real-number interpretation of these fields.
* A JS `Uint8Array` value is a `JSArr`: an object reference (`ref`)
  paired with its byte contents (`data`).  JS `===` on two `Uint8Array`s
  compares references, which the model renders as equality of `ref`;
  every decode of a name field yields a fresh `ref` drawn from a counter
  in the server state, exactly as every `read` in the source allocates
  `new Uint8Array(length)`.
* JS `Map`s and `Set`s are insertion-ordered association lists / lists,
  with `set`/`add`/`get`/`delete`/`has` given JS semantics (`mapSet`
  updates in place when the key exists, else appends).
* Randomness (`Math.random()` draws for spawn probability, position and
  hue) and the clock (`performance.now()`) are supplied to `tick` as
  explicit parameters.
-/

/-! ## Byte buffers and DataView operations -/

def UINT8_SIZE : Nat := 1
def UINT32_SIZE : Nat := 4
def FLOAT32_SIZE : Nat := 4
def USERNAME_LENGTH : Nat := 8

abbrev Buf := List Nat

/-- `view.setUint8(offset, value)`: JS converts the value with ToUint8. -/
def setUint8 (b : Buf) (off v : Nat) : Buf := b.set off (v % 256)

/-- `view.getUint8(offset)`. -/
def getUint8 (b : Buf) (off : Nat) : Nat := b.getD off 0

/-- `view.setUint32(offset, value, true)`: little-endian, value mod 2^32. -/
def setUint32 (b : Buf) (off v : Nat) : Buf :=
  setUint8 (setUint8 (setUint8 (setUint8 b off v) (off + 1) (v / 256))
    (off + 2) (v / 65536)) (off + 3) (v / 16777216)

/-- `view.getUint32(offset, true)`: little-endian. -/
def getUint32 (b : Buf) (off : Nat) : Nat :=
  getUint8 b off + 256 * getUint8 b (off + 1) + 65536 * getUint8 b (off + 2)
    + 16777216 * getUint8 b (off + 3)

/-- `view.setFloat32(offset, value, true)` modelled at bit-pattern level:
the four bytes hold the 32-bit pattern of the stored float. -/
def setFloat32 (b : Buf) (off bits : Nat) : Buf := setUint32 b off bits

/-- `view.getFloat32(offset, true)` modelled at bit-pattern level. -/
def getFloat32 (b : Buf) (off : Nat) : Nat := getUint32 b off

/-- The write half of `allocUint8ArrayField`: for each index `i` below the
field length, `view.setUint8(offset + i, value[i] || 0)`. -/
def writeBytes (b : Buf) (off len : Nat) (value : List Nat) : Buf :=
  (List.range len).foldl (fun acc i => setUint8 acc (off + i) (value.getD i 0)) b

/-- The read half of `allocUint8ArrayField`: a fresh array of `len` bytes
copied from the buffer. -/
def readBytes (b : Buf) (off len : Nat) : List Nat :=
  (List.range len).map (fun i => getUint8 b (off + i))

/-! ## Message kinds

The `MessageKind` enum of `src/common.mts` in declaration order
(TypeScript numbers the members 0..6). -/

def MessageKind.Hello : Nat := 0
def MessageKind.Ping : Nat := 1
def MessageKind.Pong : Nat := 2
def MessageKind.BalloonCreated : Nat := 3
def MessageKind.BalloonPop : Nat := 4
def MessageKind.SetUsername : Nat := 5
def MessageKind.ValidUsername : Nat := 6

/-! ## Wire structs

Each struct mirrors the allocator-driven layout of `src/common.mts`:
fields are laid out in declaration order, offsets are running sums of the
sizes, and `verify` is `verifier(kind, tag, size)`: byte length equals the
struct size and the tag byte equals the message kind.  `encode` writes the
fields into a fresh zero buffer of the struct's size (`new
ArrayBuffer(size)` is zero-filled), as the clients of the structs do. -/

namespace HelloStruct

def kindOffset : Nat := 0
def idOffset : Nat := 1
def size : Nat := 5

def verify (b : Buf) : Bool :=
  b.length == size && getUint8 b kindOffset == MessageKind.Hello

def encode (id : Nat) : Buf :=
  setUint32 (setUint8 (List.replicate size 0) kindOffset MessageKind.Hello) idOffset id

def readId (b : Buf) : Nat := getUint32 b idOffset

end HelloStruct

namespace SetUsernameStruct

def kindOffset : Nat := 0
def idOffset : Nat := 1
def valueOffset : Nat := 2
def size : Nat := 10

def verify (b : Buf) : Bool :=
  b.length == size && getUint8 b kindOffset == MessageKind.SetUsername

def encode (id : Nat) (value : List Nat) : Buf :=
  writeBytes
    (setUint8 (setUint8 (List.replicate size 0) kindOffset MessageKind.SetUsername)
      idOffset id)
    valueOffset USERNAME_LENGTH value

def readId (b : Buf) : Nat := getUint8 b idOffset

def readValue (b : Buf) : List Nat := readBytes b valueOffset USERNAME_LENGTH

end SetUsernameStruct

namespace ValidUsernameStruct

def kindOffset : Nat := 0
def valueOffset : Nat := 1
def validOffset : Nat := 9
def size : Nat := 10

def verify (b : Buf) : Bool :=
  b.length == size && getUint8 b kindOffset == MessageKind.ValidUsername

def encode (value : List Nat) (valid : Nat) : Buf :=
  setUint8
    (writeBytes (setUint8 (List.replicate size 0) kindOffset MessageKind.ValidUsername)
      valueOffset USERNAME_LENGTH value)
    validOffset valid

def readValue (b : Buf) : List Nat := readBytes b valueOffset USERNAME_LENGTH

def readValid (b : Buf) : Nat := getUint8 b validOffset

end ValidUsernameStruct

namespace PingStruct

def kindOffset : Nat := 0
def timestampOffset : Nat := 1
def size : Nat := 5

def verify (b : Buf) : Bool :=
  b.length == size && getUint8 b kindOffset == MessageKind.Ping

def encode (timestamp : Nat) : Buf :=
  setUint32 (setUint8 (List.replicate size 0) kindOffset MessageKind.Ping)
    timestampOffset timestamp

def readTimestamp (b : Buf) : Nat := getUint32 b timestampOffset

end PingStruct

namespace PongStruct

def kindOffset : Nat := 0
def timestampOffset : Nat := 1
def size : Nat := 5

def verify (b : Buf) : Bool :=
  b.length == size && getUint8 b kindOffset == MessageKind.Pong

def encode (timestamp : Nat) : Buf :=
  setUint32 (setUint8 (List.replicate size 0) kindOffset MessageKind.Pong)
    timestampOffset timestamp

def readTimestamp (b : Buf) : Nat := getUint32 b timestampOffset

end PongStruct

namespace BalloonCreatedStruct

def kindOffset : Nat := 0
def timestampOffset : Nat := 1
def idOffset : Nat := 5
def xOffset : Nat := 9
def yOffset : Nat := 13
def hueOffset : Nat := 17
def size : Nat := 18

def verify (b : Buf) : Bool :=
  b.length == size && getUint8 b kindOffset == MessageKind.BalloonCreated

def encode (timestamp id x y hue : Nat) : Buf :=
  setUint8
    (setFloat32
      (setFloat32
        (setUint32
          (setUint32 (setUint8 (List.replicate size 0) kindOffset MessageKind.BalloonCreated)
            timestampOffset timestamp)
          idOffset id)
        xOffset x)
      yOffset y)
    hueOffset hue

def readTimestamp (b : Buf) : Nat := getUint32 b timestampOffset
def readId (b : Buf) : Nat := getUint32 b idOffset
def readX (b : Buf) : Nat := getFloat32 b xOffset
def readY (b : Buf) : Nat := getFloat32 b yOffset
def readHue (b : Buf) : Nat := getUint8 b hueOffset

end BalloonCreatedStruct

namespace BalloonPopStruct

def kindOffset : Nat := 0
def timestampOffset : Nat := 1
def idOffset : Nat := 5
def size : Nat := 9

def verify (b : Buf) : Bool :=
  b.length == size && getUint8 b kindOffset == MessageKind.BalloonPop

def encode (timestamp id : Nat) : Buf :=
  setUint32
    (setUint32 (setUint8 (List.replicate size 0) kindOffset MessageKind.BalloonPop)
      timestampOffset timestamp)
    idOffset id

def readTimestamp (b : Buf) : Nat := getUint32 b timestampOffset
def readId (b : Buf) : Nat := getUint32 b idOffset

end BalloonPopStruct

/-! Modelled from the spec: `BalloonPopMsg` is the balloon-pop message
carrying the popping player's id.  The server's message handler and the
client both access `BalloonPopStruct.playerId`, but the
`BalloonPopStruct` present in `src/common.mts` has no such field; §4.1 of
the specification gives the collectible-pop layout as
`tag+timestamp+id[+popping-player-id]`, so this struct appends a uint32
`playerId` field after `id` in the allocator's declaration order. -/

namespace BalloonPopMsg

def kindOffset : Nat := 0
def timestampOffset : Nat := 1
def idOffset : Nat := 5
def playerIdOffset : Nat := 9
def size : Nat := 13

def verify (b : Buf) : Bool :=
  b.length == size && getUint8 b kindOffset == MessageKind.BalloonPop

def encode (timestamp id playerId : Nat) : Buf :=
  setUint32
    (setUint32
      (setUint32 (setUint8 (List.replicate size 0) kindOffset MessageKind.BalloonPop)
        timestampOffset timestamp)
      idOffset id)
    playerIdOffset playerId

def readTimestamp (b : Buf) : Nat := getUint32 b timestampOffset
def readId (b : Buf) : Nat := getUint32 b idOffset
def readPlayerId (b : Buf) : Nat := getUint32 b playerIdOffset

end BalloonPopMsg

/-! ## Server state

The mutable top-level state of the server in `src/common.mts`: the
`players` and `balloons` maps, the shared id counter, the balloon
counter, the per-tick accumulator sets/maps, and the telemetry counters
that the claims mention (`playersRejected`, `bsMessages`).  `refCounter`
implements object identity for decoded `Uint8Array`s (see the header
comment).  `balloonCounter` is an `Int` because the handler decrements it
without a lower bound. -/

structure JSArr where
  ref : Nat
  data : List Nat
  deriving DecidableEq

structure Balloon where
  id : Nat
  x : Nat
  y : Nat
  hue : Nat
  timestamp : Nat
  deriving DecidableEq

structure PlayerOnServer where
  id : Nat
  username : Option JSArr
  score : Nat
  deriving DecidableEq

/-- JS `Map.prototype.get`. -/
def mapGet {α : Type} (m : List (Nat × α)) (k : Nat) : Option α :=
  (m.find? (fun e => e.1 == k)).map (fun e => e.2)

/-- JS `Map.prototype.set`: update in place if the key exists (keeping its
position in iteration order), otherwise append. -/
def mapSet {α : Type} (m : List (Nat × α)) (k : Nat) (v : α) : List (Nat × α) :=
  if m.any (fun e => e.1 == k) then
    m.map (fun e => if e.1 == k then (k, v) else e)
  else
    m ++ [(k, v)]

/-- JS `Map.prototype.delete`. -/
def mapDelete {α : Type} (m : List (Nat × α)) (k : Nat) : List (Nat × α) :=
  m.filter (fun e => e.1 != k)

/-- JS `Set.prototype.add`. -/
def setAdd (s : List Nat) (k : Nat) : List Nat :=
  if s.contains k then s else s ++ [k]

structure ServerState where
  players : List (Nat × PlayerOnServer)
  balloons : List (Nat × Balloon)
  idCounter : Nat
  balloonCounter : Int
  refCounter : Nat
  joinedIds : List Nat
  pingIds : List (Nat × Nat)
  requestUsernameIds : List (Nat × JSArr)
  setUsernameIds : List Nat
  createdBalloonIds : List Nat
  poppedBalloonIds : List (Nat × Nat)
  updatedScorePlayerIds : List Nat
  playersRejected : Nat
  bsMessages : Nat
  ticksCount : Nat
  deriving DecidableEq

def initialState : ServerState :=
  { players := [], balloons := [], idCounter := 0, balloonCounter := 0,
    refCounter := 0, joinedIds := [], pingIds := [], requestUsernameIds := [],
    setUsernameIds := [], createdBalloonIds := [], poppedBalloonIds := [],
    updatedScorePlayerIds := [], playersRejected := 0, bsMessages := 0,
    ticksCount := 0 }

def SERVER_FPS : Nat := 60
def SERVER_LIMIT : Nat := 10
def BALLOON_LIMIT : Nat := 10

/-! ## Connection handler (`wss.on('connection', ...)`) -/

inductive ConnResult
  | rejected
  | accepted (id : Nat)
  deriving DecidableEq

/-- The connection handler: if `players.size >= SERVER_LIMIT` the
connection is rejected (`playersRejected` incremented, transport closed,
no id assigned); otherwise a fresh id is assigned from `idCounter`, a
player with no username and score 0 is inserted, and the id joins
`joinedIds`. -/
def handleConnection (st : ServerState) : ServerState × ConnResult :=
  if st.players.length ≥ SERVER_LIMIT then
    ({ st with playersRejected := st.playersRejected + 1 }, ConnResult.rejected)
  else
    ({ st with
        idCounter := st.idCounter + 1,
        players := mapSet st.players st.idCounter
          { id := st.idCounter, username := none, score := 0 },
        joinedIds := setAdd st.joinedIds st.idCounter },
      ConnResult.accepted st.idCounter)

/-! ## Message handler (`ws.addEventListener('message', ...)`) -/

/-- An inbound frame: either not a binary frame (`event.data` is not an
`ArrayBuffer`) or a binary buffer. -/
inductive Frame
  | nonBinary
  | binary (data : Buf)
  deriving DecidableEq

/-- The `BalloonPop` branch of the message handler, applied to the decoded
fields: if the referenced balloon exists, the source executes
`balloons.delete(id)` — `id` being the *connection's* id captured by the
handler closure, not `balloonId` — then records the pop request and
decrements `balloonCounter`; a stale pop (balloon gone) only logs. -/
def handleBalloonPop (connId balloonId playerId : Nat) (st : ServerState) : ServerState :=
  match mapGet st.balloons balloonId with
  | some _ =>
      { st with
          balloons := mapDelete st.balloons connId,
          poppedBalloonIds := mapSet st.poppedBalloonIds balloonId playerId,
          balloonCounter := st.balloonCounter - 1 }
  | none => st

/-- The message handler for connection `connId`.  Returns the updated
state and whether the handler closed the connection.  A non-binary frame
or a buffer failing all three accepted verifies (`SetUsername`, `Ping`,
`BalloonPop`) increments the `bsMessages` counter and closes the
connection.  The `playerId` read in the pop branch is the spec-modelled
field of `BalloonPopMsg` (see above). -/
def handleMessage (connId : Nat) (f : Frame) (st : ServerState) : ServerState × Bool :=
  match f with
  | Frame.nonBinary => ({ st with bsMessages := st.bsMessages + 1 }, true)
  | Frame.binary b =>
      if SetUsernameStruct.verify b then
        ({ st with
            requestUsernameIds := mapSet st.requestUsernameIds
              (SetUsernameStruct.readId b)
              { ref := st.refCounter, data := SetUsernameStruct.readValue b },
            refCounter := st.refCounter + 1 }, false)
      else if PingStruct.verify b then
        ({ st with pingIds := mapSet st.pingIds connId (PingStruct.readTimestamp b) }, false)
      else if BalloonPopMsg.verify b then
        (handleBalloonPop connId (BalloonPopMsg.readId b) (BalloonPopMsg.readPlayerId b) st, false)
      else
        ({ st with bsMessages := st.bsMessages + 1 }, true)

/-! ## The tick loop

Each step of `tick()` in source order.  Outbound traffic is recorded as a
list of `(recipient connection key, message kind)` pairs in send order;
payload bytes are not needed by any claim.  The kinds `Players`,
`PlayersJoined` and `PlayersScores` are modelled from the spec (§6 lists
the batched PlayersSnapshot/PlayersJoined/PlayersScores kinds; the server
references `common.MessageKind.Players` etc., which the `MessageKind`
enum under `src/` does not define). -/

inductive SendKind
  | Hello
  | Pong
  | BalloonCreated
  | BalloonPop
  | ValidUsername
  | Players
  | PlayersJoined
  | PlayersScores
  deriving DecidableEq

abbrev Send := Nat × SendKind

/-- `player.score += 5` through the map reference. -/
def scorePop (ps : List (Nat × PlayerOnServer)) (pid : Nat) : List (Nat × PlayerOnServer) :=
  ps.map (fun e => if e.1 == pid then (e.1, { e.2 with score := e.2.score + 5 }) else e)

/-- `players.forEach((player) => { if (player.username !== undefined) player.ws.send(...) })`. -/
def namedSendsTo (ps : List (Nat × PlayerOnServer)) (k : SendKind) : List Send :=
  (ps.filter (fun e => e.2.username.isSome)).map (fun e => (e.1, k))

/-- Tick step 1, pop resolution (`poppedBalloonIds.forEach`): award 5
points to the requesting player if it still exists, mark it for a score
broadcast, and broadcast the pop to every named player. -/
def popStep : List (Nat × Nat) → List (Nat × PlayerOnServer) → List Nat →
    List (Nat × PlayerOnServer) × List Nat × List Send
  | [], ps, upd => (ps, upd, [])
  | (_bid, pid) :: rest, ps, upd =>
      let found := (mapGet ps pid).isSome
      let ps1 := if found then scorePop ps pid else ps
      let upd1 := if found then setAdd upd pid else upd
      let out := namedSendsTo ps1 SendKind.BalloonPop
      let r := popStep rest ps1 upd1
      (r.1, r.2.1, out ++ r.2.2)

/-- `Array.from(players.values()).some(player => player.username === username)`:
JS `===` on two `Uint8Array` objects compares references. -/
def refEqUsername (ps : List (Nat × PlayerOnServer)) (u : JSArr) : Bool :=
  ps.any (fun e => match e.2.username with
    | some w => w.ref == u.ref
    | none => false)

/-- Tick step 2, username negotiation (`requestUsernameIds.forEach`): the
request is valid when no player's current username is `===` the requested
array; if the requesting player exists, a valid name is assigned, a
`ValidUsername` result is sent to it either way, and on validity it joins
`setUsernameIds`. -/
def usernameStep : List (Nat × JSArr) → List (Nat × PlayerOnServer) → List Nat →
    List (Nat × PlayerOnServer) × List Nat × List Send
  | [], ps, su => (ps, su, [])
  | (pid, uname) :: rest, ps, su =>
      let valid := !(refEqUsername ps uname)
      match mapGet ps pid with
      | some p =>
          let ps1 := if valid then mapSet ps pid { p with username := some uname } else ps
          let su1 := if valid then setAdd su pid else su
          let r := usernameStep rest ps1 su1
          (r.1, r.2.1, (pid, SendKind.ValidUsername) :: r.2.2)
      | none =>
          usernameStep rest ps su

/-- Tick step 3 (gated on `setUsernameIds.size > 0`): each newly-named
player receives a batched `Players` snapshot; every named player not in
the newly-named set receives a batched `PlayersJoined` record. -/
def snapshotSends (ps : List (Nat × PlayerOnServer)) (su : List Nat) : List Send :=
  if su.isEmpty then [] else
    (su.filterMap (fun pid =>
        if (mapGet ps pid).isSome then some (pid, SendKind.Players) else none))
    ++ ((ps.filter (fun e => e.2.username.isSome && !(su.contains e.2.id))).map
        (fun e => (e.1, SendKind.PlayersJoined)))

/-- Tick step 4 (gated on `updatedScorePlayerIds.size > 0`): the inner
`players.forEach` broadcast is nested inside the outer loop, so the
scores buffer goes to every named player once per marked id. -/
def scoreSends (ps : List (Nat × PlayerOnServer)) (upd : List Nat) : List Send :=
  if upd.isEmpty then [] else
    upd.flatMap (fun _ => namedSendsTo ps SendKind.PlayersScores)

/-- Tick step 5, join handshake: each joined id still present receives its
`Hello`. -/
def helloSends (ps : List (Nat × PlayerOnServer)) (joined : List Nat) : List Send :=
  joined.filterMap (fun jid =>
    if (mapGet ps jid).isSome then some (jid, SendKind.Hello) else none)

/-- Tick step 6, ping/pong: each pinging connection still present receives
a `Pong` echoing its timestamp. -/
def pongSends (ps : List (Nat × PlayerOnServer)) (pings : List (Nat × Nat)) : List Send :=
  pings.filterMap (fun e =>
    if (mapGet ps e.1).isSome then some (e.1, SendKind.Pong) else none)

/-- Tick step 7, collectible spawn: only when at least one named player
exists, `balloonCounter < BALLOON_LIMIT`, the tick counter is a multiple
of `SERVER_FPS / 2`, and the uniform draw fell below the dynamic
probability (`rnd`); then a balloon with a fresh id from the shared
`idCounter` is inserted.  The draw outcome and the random position, hue
and timestamp are parameters. -/
def spawnStep (rnd : Bool) (x y hue ts : Nat) (ps : List (Nat × PlayerOnServer))
    (balloons : List (Nat × Balloon)) (idCounter : Nat) (balloonCounter : Int)
    (ticksCount : Nat) (created : List Nat) :
    List (Nat × Balloon) × Nat × Int × List Nat :=
  if (ps.filter (fun e => e.2.username.isSome)).length ≠ 0
      ∧ balloonCounter < (BALLOON_LIMIT : Int)
      ∧ ticksCount % (SERVER_FPS / 2) = 0 ∧ rnd = true then
    (mapSet balloons idCounter { id := idCounter, x := x, y := y, hue := hue, timestamp := ts },
      idCounter + 1, balloonCounter + 1, setAdd created idCounter)
  else
    (balloons, idCounter, balloonCounter, created)

/-- Tick step 8, collectible broadcast: each balloon created this tick and
still present is broadcast to every named player. -/
def createdSends (ps : List (Nat × PlayerOnServer)) (balloons : List (Nat × Balloon))
    (created : List Nat) : List Send :=
  created.flatMap (fun cbid =>
    if (mapGet balloons cbid).isSome then namedSendsTo ps SendKind.BalloonCreated else [])

/-- One tick of the simulation loop, in source order: pop resolution,
username negotiation, newly-named snapshots, score broadcast, join
handshake, pong, spawn, created broadcast, then telemetry/cleanup
(accumulators cleared, tick counter incremented).  Returns the new state
and the outbound sends in order. -/
def tick (rnd : Bool) (x y hue ts : Nat) (st : ServerState) : ServerState × List Send :=
  let r1 := popStep st.poppedBalloonIds st.players st.updatedScorePlayerIds
  let ps1 := r1.1
  let upd1 := r1.2.1
  let out1 := r1.2.2
  let r2 := usernameStep st.requestUsernameIds ps1 st.setUsernameIds
  let ps2 := r2.1
  let su2 := r2.2.1
  let out2 := r2.2.2
  let out3 := snapshotSends ps2 su2
  let out4 := scoreSends ps2 upd1
  let out5 := helloSends ps2 st.joinedIds
  let out6 := pongSends ps2 st.pingIds
  let r7 := spawnStep rnd x y hue ts ps2 st.balloons st.idCounter st.balloonCounter
    st.ticksCount st.createdBalloonIds
  let out8 := createdSends ps2 r7.1 r7.2.2.2
  ({ st with
      players := ps2,
      balloons := r7.1,
      idCounter := r7.2.1,
      balloonCounter := r7.2.2.1,
      joinedIds := [],
      pingIds := [],
      requestUsernameIds := [],
      setUsernameIds := [],
      createdBalloonIds := [],
      poppedBalloonIds := [],
      updatedScorePlayerIds := [],
      ticksCount := st.ticksCount + 1 },
    out1 ++ out2 ++ out3 ++ out4 ++ out5 ++ out6 ++ out8)

/-! ## Event traces

Reachability: a server run is a sequence of connection attempts, inbound
frames and ticks applied to the empty initial state. -/

inductive Event
  | connect
  | message (connId : Nat) (f : Frame)
  | tickEv (rnd : Bool) (x y hue ts : Nat)

def stepEvent (st : ServerState) : Event → ServerState
  | Event.connect => (handleConnection st).1
  | Event.message c f => (handleMessage c f st).1
  | Event.tickEv r x y h t => (tick r x y h t st).1

def runTrace (evts : List Event) : ServerState :=
  evts.foldl stepEvent initialState

/-! ## Predicates and concrete scenarios used by the claims -/

/-- A frame is malformed when it is not binary or when its buffer fails
the verify check of every layout the message handler accepts. -/
def malformedFrame : Frame → Bool
  | Frame.nonBinary => true
  | Frame.binary b =>
      !(SetUsernameStruct.verify b) && !(PingStruct.verify b) && !(BalloonPopMsg.verify b)

/-- The username (as stored) of the first player entry with the given
key: `some none` = connected but unnamed, `some (some u)` = named. -/
def unameAt (ps : List (Nat × PlayerOnServer)) (r : Nat) : Option (Option JSArr) :=
  (mapGet ps r).map (fun p => p.username)

/-- The connection key `r` denotes a named player. -/
def namedKey (ps : List (Nat × PlayerOnServer)) (r : Nat) : Prop :=
  ∃ u, unameAt ps r = some (some u)

/-- The byte contents `"alice"` zero-padded to the fixed name width. -/
def aliceBytes : List Nat := [97, 108, 105, 99, 101, 0, 0, 0]

/-- Connection `pid` sends a name request carrying its own id, as the
client does after learning its id from `Hello`. -/
def suMsg (pid : Nat) : Event :=
  Event.message pid (Frame.binary (SetUsernameStruct.encode pid aliceBytes))

/-- Connection 0 sends a pop request for balloon id 1 naming itself as
the popping player. -/
def popMsg : Event := Event.message 0 (Frame.binary (BalloonPopMsg.encode 0 1 0))

/-- Connection 0 sends a ping with timestamp 123. -/
def pingMsg : Event := Event.message 0 (Frame.binary (PingStruct.encode 123))

/-- A tick whose spawn draw fails. -/
def idleTick : Event := Event.tickEv false 0 0 0 0

/-- A tick whose spawn draw succeeds (possible on every spawn window,
since `exp(-balloonCounter / 2.5) > 0`). -/
def spawnTick : Event := Event.tickEv true 0 0 0 0

/-- C1 scenario: a player connects, gets named, a balloon spawns
(id 1, the id counter having given 0 to the player), and the player pops
it. -/
def c1Trace : List Event := [Event.connect, suMsg 0, spawnTick, popMsg]

/-- C5 scenario: the C1 scenario, a tick resolving the pop, the same pop
again, and a tick resolving it again. -/
def c5Trace : List Event := c1Trace ++ [idleTick, popMsg, idleTick]

/-- C3 scenario: two players connect; the first claims "alice" in one
tick; the second requests the byte-identical name in the next tick. -/
def c3Trace : List Event :=
  [Event.connect, Event.connect, suMsg 0, idleTick, suMsg 1, idleTick]

/-- One spawn window: a successful spawn tick followed by 29 idle ticks,
returning the tick counter to a spawn window. -/
def c4Block : List Event := spawnTick :: List.replicate 29 idleTick

def c4Blocks : Nat → List Event
  | 0 => []
  | n + 1 => c4Block ++ c4Blocks n

/-- C4 scenario: one named player; ten spawn windows fill the world to
the ceiling; a pop request decrements `balloonCounter` without shrinking
the map; the next spawn window admits an eleventh live balloon. -/
def c4Trace : List Event :=
  [Event.connect, suMsg 0, spawnTick] ++ List.replicate 29 idleTick
    ++ c4Blocks 9 ++ [popMsg, spawnTick]

/-- C7 scenario: an unnamed connection with a pending ping. -/
def c7State : ServerState := runTrace [Event.connect, pingMsg]

/-- C9 scenario: a connection that joined this tick together with a
pending name request carrying its id. -/
def c9State : ServerState := runTrace [Event.connect, suMsg 0]

/-- A connection that joined this tick with no pending name request. -/
def c9WitnessState : ServerState := runTrace [Event.connect]

/-- Ten connections filling the server to `SERVER_LIMIT`. -/
def c6State : ServerState := runTrace (List.replicate 10 Event.connect)


/-- The balloons inserted by `k` successful spawn windows (all random
draws zero, as in `spawnTick`) starting from id counter `idc`. -/
def addBalloons : Nat → Nat → List (Nat × Balloon) → List (Nat × Balloon)
  | 0, _, bs => bs
  | k + 1, idc, bs =>
      addBalloons k (idc + 1)
        (mapSet bs idc { id := idc, x := 0, y := 0, hue := 0, timestamp := 0 })

/-- The state reached by `[Event.connect, suMsg 0, spawnTick]`: one named
player (id 0), one balloon (id 1), one tick elapsed. -/
def c4StateA : ServerState :=
  { players := [(0, { id := 0, username := some { ref := 0, data := aliceBytes }, score := 0 })],
    balloons := [(1, { id := 1, x := 0, y := 0, hue := 0, timestamp := 0 })],
    idCounter := 2, balloonCounter := 1, refCounter := 1,
    joinedIds := [], pingIds := [], requestUsernameIds := [], setUsernameIds := [],
    createdBalloonIds := [], poppedBalloonIds := [], updatedScorePlayerIds := [],
    playersRejected := 0, bsMessages := 0, ticksCount := 1 }

/-! ## Theorems

First, helper lemmas: normal forms for reading each struct field back out
of an encoded buffer, and characterizations of each `verify`. -/

theorem range_eight : List.range 8 = [0, 1, 2, 3, 4, 5, 6, 7] := rfl

theorem hello_readId (id : Nat) :
    HelloStruct.readId (HelloStruct.encode id)
      = id % 256 + 256 * (id / 256 % 256) + 65536 * (id / 65536 % 256)
        + 16777216 * (id / 16777216 % 256) := by
  simp [HelloStruct.readId, HelloStruct.encode, HelloStruct.idOffset, HelloStruct.kindOffset,
    HelloStruct.size,
    getUint32, getUint8, setUint32, setUint8, List.getD_eq_getElem?_getD,
    List.getElem?_set, List.length_set]

theorem ping_readTimestamp (ts : Nat) :
    PingStruct.readTimestamp (PingStruct.encode ts)
      = ts % 256 + 256 * (ts / 256 % 256) + 65536 * (ts / 65536 % 256)
        + 16777216 * (ts / 16777216 % 256) := by
  simp [PingStruct.readTimestamp, PingStruct.encode, PingStruct.timestampOffset,
    PingStruct.kindOffset, PingStruct.size, getUint32, getUint8, setUint32, setUint8,
    List.getD_eq_getElem?_getD, List.getElem?_set, List.length_set]

theorem pong_readTimestamp (ts : Nat) :
    PongStruct.readTimestamp (PongStruct.encode ts)
      = ts % 256 + 256 * (ts / 256 % 256) + 65536 * (ts / 65536 % 256)
        + 16777216 * (ts / 16777216 % 256) := by
  simp [PongStruct.readTimestamp, PongStruct.encode, PongStruct.timestampOffset,
    PongStruct.kindOffset, PongStruct.size, getUint32, getUint8, setUint32, setUint8,
    List.getD_eq_getElem?_getD, List.getElem?_set, List.length_set]

theorem bc_reads (ts id x y hue : Nat) :
    BalloonCreatedStruct.readTimestamp (BalloonCreatedStruct.encode ts id x y hue)
      = ts % 256 + 256 * (ts / 256 % 256) + 65536 * (ts / 65536 % 256)
        + 16777216 * (ts / 16777216 % 256)
    ∧ BalloonCreatedStruct.readId (BalloonCreatedStruct.encode ts id x y hue)
      = id % 256 + 256 * (id / 256 % 256) + 65536 * (id / 65536 % 256)
        + 16777216 * (id / 16777216 % 256)
    ∧ BalloonCreatedStruct.readX (BalloonCreatedStruct.encode ts id x y hue)
      = x % 256 + 256 * (x / 256 % 256) + 65536 * (x / 65536 % 256)
        + 16777216 * (x / 16777216 % 256)
    ∧ BalloonCreatedStruct.readY (BalloonCreatedStruct.encode ts id x y hue)
      = y % 256 + 256 * (y / 256 % 256) + 65536 * (y / 65536 % 256)
        + 16777216 * (y / 16777216 % 256)
    ∧ BalloonCreatedStruct.readHue (BalloonCreatedStruct.encode ts id x y hue) = hue % 256 := by
  refine ⟨?_, ?_, ?_, ?_, ?_⟩ <;>
    simp [BalloonCreatedStruct.readTimestamp, BalloonCreatedStruct.readId,
      BalloonCreatedStruct.readX, BalloonCreatedStruct.readY, BalloonCreatedStruct.readHue,
      BalloonCreatedStruct.encode, BalloonCreatedStruct.timestampOffset,
      BalloonCreatedStruct.idOffset, BalloonCreatedStruct.xOffset, BalloonCreatedStruct.yOffset,
      BalloonCreatedStruct.hueOffset, BalloonCreatedStruct.kindOffset, BalloonCreatedStruct.size,
      getUint32, getUint8, setUint32, setUint8, setFloat32, getFloat32,
      List.getD_eq_getElem?_getD, List.getElem?_set, List.length_set]

theorem bp_reads (ts id : Nat) :
    BalloonPopStruct.readTimestamp (BalloonPopStruct.encode ts id)
      = ts % 256 + 256 * (ts / 256 % 256) + 65536 * (ts / 65536 % 256)
        + 16777216 * (ts / 16777216 % 256)
    ∧ BalloonPopStruct.readId (BalloonPopStruct.encode ts id)
      = id % 256 + 256 * (id / 256 % 256) + 65536 * (id / 65536 % 256)
        + 16777216 * (id / 16777216 % 256) := by
  refine ⟨?_, ?_⟩ <;>
    simp [BalloonPopStruct.readTimestamp, BalloonPopStruct.readId, BalloonPopStruct.encode,
      BalloonPopStruct.timestampOffset, BalloonPopStruct.idOffset, BalloonPopStruct.kindOffset,
      BalloonPopStruct.size,
      getUint32, getUint8, setUint32, setUint8,
      List.getD_eq_getElem?_getD, List.getElem?_set, List.length_set]

theorem su_readId (pid : Nat) (value : List Nat) :
    SetUsernameStruct.readId (SetUsernameStruct.encode pid value) = pid % 256 := by
  simp [SetUsernameStruct.readId, SetUsernameStruct.encode, SetUsernameStruct.idOffset,
    SetUsernameStruct.valueOffset, SetUsernameStruct.kindOffset, SetUsernameStruct.size,
    USERNAME_LENGTH,
    writeBytes, range_eight, getUint8, setUint8,
    List.getD_eq_getElem?_getD, List.getElem?_set, List.length_set]

theorem su_readValue (pid : Nat) (value : List Nat) :
    SetUsernameStruct.readValue (SetUsernameStruct.encode pid value)
      = [value.getD 0 0 % 256, value.getD 1 0 % 256, value.getD 2 0 % 256,
         value.getD 3 0 % 256, value.getD 4 0 % 256, value.getD 5 0 % 256,
         value.getD 6 0 % 256, value.getD 7 0 % 256] := by
  simp [SetUsernameStruct.readValue, SetUsernameStruct.encode, SetUsernameStruct.idOffset,
    SetUsernameStruct.valueOffset, SetUsernameStruct.kindOffset, SetUsernameStruct.size,
    USERNAME_LENGTH,
    writeBytes, readBytes, range_eight, getUint8, setUint8,
    List.getD_eq_getElem?_getD, List.getElem?_set, List.length_set]

theorem vu_readValid (value : List Nat) (v : Nat) :
    ValidUsernameStruct.readValid (ValidUsernameStruct.encode value v) = v % 256 := by
  simp [ValidUsernameStruct.readValid, ValidUsernameStruct.encode,
    ValidUsernameStruct.valueOffset, ValidUsernameStruct.validOffset,
    ValidUsernameStruct.kindOffset, ValidUsernameStruct.size, USERNAME_LENGTH,
    writeBytes, range_eight, getUint8, setUint8,
    List.getD_eq_getElem?_getD, List.getElem?_set, List.length_set]

theorem vu_readValue (value : List Nat) (v : Nat) :
    ValidUsernameStruct.readValue (ValidUsernameStruct.encode value v)
      = [value.getD 0 0 % 256, value.getD 1 0 % 256, value.getD 2 0 % 256,
         value.getD 3 0 % 256, value.getD 4 0 % 256, value.getD 5 0 % 256,
         value.getD 6 0 % 256, value.getD 7 0 % 256] := by
  simp [ValidUsernameStruct.readValue, ValidUsernameStruct.encode,
    ValidUsernameStruct.valueOffset, ValidUsernameStruct.validOffset,
    ValidUsernameStruct.kindOffset, ValidUsernameStruct.size, USERNAME_LENGTH,
    writeBytes, readBytes, range_eight, getUint8, setUint8,
    List.getD_eq_getElem?_getD, List.getElem?_set, List.length_set]

theorem su_verify_encode (pid : Nat) (value : List Nat) :
    SetUsernameStruct.verify (SetUsernameStruct.encode pid value) = true := by
  simp [SetUsernameStruct.verify, SetUsernameStruct.encode, SetUsernameStruct.size,
    SetUsernameStruct.idOffset, SetUsernameStruct.valueOffset, SetUsernameStruct.kindOffset,
    USERNAME_LENGTH, MessageKind.SetUsername, writeBytes, range_eight, getUint8, setUint8,
    List.getD_eq_getElem?_getD, List.getElem?_set, List.length_set]

theorem hello_verify_iff (b : Buf) :
    HelloStruct.verify b = true ↔ b.length = HelloStruct.size ∧ getUint8 b 0 = MessageKind.Hello := by
  simp [HelloStruct.verify, HelloStruct.kindOffset]

theorem ping_verify_iff (b : Buf) :
    PingStruct.verify b = true ↔ b.length = PingStruct.size ∧ getUint8 b 0 = MessageKind.Ping := by
  simp [PingStruct.verify, PingStruct.kindOffset]

theorem pong_verify_iff (b : Buf) :
    PongStruct.verify b = true ↔ b.length = PongStruct.size ∧ getUint8 b 0 = MessageKind.Pong := by
  simp [PongStruct.verify, PongStruct.kindOffset]

theorem bc_verify_iff (b : Buf) :
    BalloonCreatedStruct.verify b = true
      ↔ b.length = BalloonCreatedStruct.size ∧ getUint8 b 0 = MessageKind.BalloonCreated := by
  simp [BalloonCreatedStruct.verify, BalloonCreatedStruct.kindOffset]

theorem bp_verify_iff (b : Buf) :
    BalloonPopStruct.verify b = true
      ↔ b.length = BalloonPopStruct.size ∧ getUint8 b 0 = MessageKind.BalloonPop := by
  simp [BalloonPopStruct.verify, BalloonPopStruct.kindOffset]

theorem su_verify_iff (b : Buf) :
    SetUsernameStruct.verify b = true
      ↔ b.length = SetUsernameStruct.size ∧ getUint8 b 0 = MessageKind.SetUsername := by
  simp [SetUsernameStruct.verify, SetUsernameStruct.kindOffset]

theorem vu_verify_iff (b : Buf) :
    ValidUsernameStruct.verify b = true
      ↔ b.length = ValidUsernameStruct.size ∧ getUint8 b 0 = MessageKind.ValidUsername := by
  simp [ValidUsernameStruct.verify, ValidUsernameStruct.kindOffset]

/-! ### C2 — codec round-trip and verify -/

/-- C2 counterexample: the claim's field ranges fail on the code.  A hue
of 300 (within the spec's 0–359 range) reads back as 44 because the hue
field is a single byte; a requester-id of 300 (the claim allows any
uint32 id) reads back as 44 because the `SetUsernameStruct` id field is a
single byte; a 3-byte display name (the claim allows names of up to 8
bytes) reads back zero-padded to the fixed 8-byte width. -/
theorem C2_counterexample :
    BalloonCreatedStruct.readHue (BalloonCreatedStruct.encode 0 0 0 0 300) ≠ 300
    ∧ SetUsernameStruct.readId (SetUsernameStruct.encode 300 aliceBytes) ≠ 300
    ∧ SetUsernameStruct.readValue (SetUsernameStruct.encode 0 [1, 2, 3]) ≠ [1, 2, 3] := by
  refine ⟨?_, ?_, ?_⟩
  · rw [(bc_reads 0 0 0 0 300).2.2.2.2]; decide
  · rw [su_readId 300 aliceBytes]; decide
  · rw [su_readValue 0 [1, 2, 3]]; decide

/-- C2 amended: for every message kind, writing field values that fit
their declared field widths — one byte for hue, the name-request
requester-id and the name-result flag, uint32 for ids and timestamps,
float32 bit patterns for positions, and display names of exactly the
8-byte field width — into a fresh buffer of the struct's size and reading
them back yields the original values; and each struct's `verify` accepts
a buffer if and only if its byte length equals the struct's exact size
and its tag byte equals the struct's message kind. -/
theorem C2_roundtrip_amended :
    (∀ id, id < 4294967296 → HelloStruct.readId (HelloStruct.encode id) = id)
    ∧ (∀ ts, ts < 4294967296 → PingStruct.readTimestamp (PingStruct.encode ts) = ts)
    ∧ (∀ ts, ts < 4294967296 → PongStruct.readTimestamp (PongStruct.encode ts) = ts)
    ∧ (∀ ts id x y hue, ts < 4294967296 → id < 4294967296 → x < 4294967296 →
        y < 4294967296 → hue < 256 →
        BalloonCreatedStruct.readTimestamp (BalloonCreatedStruct.encode ts id x y hue) = ts
        ∧ BalloonCreatedStruct.readId (BalloonCreatedStruct.encode ts id x y hue) = id
        ∧ BalloonCreatedStruct.readX (BalloonCreatedStruct.encode ts id x y hue) = x
        ∧ BalloonCreatedStruct.readY (BalloonCreatedStruct.encode ts id x y hue) = y
        ∧ BalloonCreatedStruct.readHue (BalloonCreatedStruct.encode ts id x y hue) = hue)
    ∧ (∀ ts id, ts < 4294967296 → id < 4294967296 →
        BalloonPopStruct.readTimestamp (BalloonPopStruct.encode ts id) = ts
        ∧ BalloonPopStruct.readId (BalloonPopStruct.encode ts id) = id)
    ∧ (∀ pid value, pid < 256 → value.length = 8 → (∀ n ∈ value, n < 256) →
        SetUsernameStruct.readId (SetUsernameStruct.encode pid value) = pid
        ∧ SetUsernameStruct.readValue (SetUsernameStruct.encode pid value) = value)
    ∧ (∀ v value, v < 256 → value.length = 8 → (∀ n ∈ value, n < 256) →
        ValidUsernameStruct.readValid (ValidUsernameStruct.encode value v) = v
        ∧ ValidUsernameStruct.readValue (ValidUsernameStruct.encode value v) = value)
    ∧ (∀ b : Buf, HelloStruct.verify b = true
        ↔ b.length = HelloStruct.size ∧ getUint8 b 0 = MessageKind.Hello)
    ∧ (∀ b : Buf, PingStruct.verify b = true
        ↔ b.length = PingStruct.size ∧ getUint8 b 0 = MessageKind.Ping)
    ∧ (∀ b : Buf, PongStruct.verify b = true
        ↔ b.length = PongStruct.size ∧ getUint8 b 0 = MessageKind.Pong)
    ∧ (∀ b : Buf, BalloonCreatedStruct.verify b = true
        ↔ b.length = BalloonCreatedStruct.size ∧ getUint8 b 0 = MessageKind.BalloonCreated)
    ∧ (∀ b : Buf, BalloonPopStruct.verify b = true
        ↔ b.length = BalloonPopStruct.size ∧ getUint8 b 0 = MessageKind.BalloonPop)
    ∧ (∀ b : Buf, SetUsernameStruct.verify b = true
        ↔ b.length = SetUsernameStruct.size ∧ getUint8 b 0 = MessageKind.SetUsername)
    ∧ (∀ b : Buf, ValidUsernameStruct.verify b = true
        ↔ b.length = ValidUsernameStruct.size ∧ getUint8 b 0 = MessageKind.ValidUsername) := by
  refine ⟨?_, ?_, ?_, ?_, ?_, ?_, ?_,
    hello_verify_iff, ping_verify_iff, pong_verify_iff, bc_verify_iff,
    bp_verify_iff, su_verify_iff, vu_verify_iff⟩
  · intro id h; rw [hello_readId]; omega
  · intro ts h; rw [ping_readTimestamp]; omega
  · intro ts h; rw [pong_readTimestamp]; omega
  · intro ts id x y hue hts hid hx hy hhue
    obtain ⟨e1, e2, e3, e4, e5⟩ := bc_reads ts id x y hue
    rw [e1, e2, e3, e4, e5]
    refine ⟨by omega, by omega, by omega, by omega, by omega⟩
  · intro ts id hts hid
    obtain ⟨e1, e2⟩ := bp_reads ts id
    rw [e1, e2]
    exact ⟨by omega, by omega⟩
  · intro pid value hpid hlen hmem
    match value, hlen with
    | [n0, n1, n2, n3, n4, n5, n6, n7], _ =>
      rw [su_readId, su_readValue]
      have hget : ∀ d : Nat,
          [n0, n1, n2, n3, n4, n5, n6, n7].getD 0 d = n0
          ∧ [n0, n1, n2, n3, n4, n5, n6, n7].getD 1 d = n1
          ∧ [n0, n1, n2, n3, n4, n5, n6, n7].getD 2 d = n2
          ∧ [n0, n1, n2, n3, n4, n5, n6, n7].getD 3 d = n3
          ∧ [n0, n1, n2, n3, n4, n5, n6, n7].getD 4 d = n4
          ∧ [n0, n1, n2, n3, n4, n5, n6, n7].getD 5 d = n5
          ∧ [n0, n1, n2, n3, n4, n5, n6, n7].getD 6 d = n6
          ∧ [n0, n1, n2, n3, n4, n5, n6, n7].getD 7 d = n7 :=
        fun d => ⟨rfl, rfl, rfl, rfl, rfl, rfl, rfl, rfl⟩
      obtain ⟨g0, g1, g2, g3, g4, g5, g6, g7⟩ := hget 0
      rw [g0, g1, g2, g3, g4, g5, g6, g7]
      simp only [List.mem_cons, List.not_mem_nil, or_false, forall_eq_or_imp, forall_eq] at hmem
      obtain ⟨h0, h1, h2, h3, h4, h5, h6, h7⟩ := hmem
      simp only [List.cons.injEq, and_true]
      refine ⟨by omega, by omega, by omega, by omega, by omega, by omega, by omega, by omega⟩
  · intro v value hv hlen hmem
    match value, hlen with
    | [n0, n1, n2, n3, n4, n5, n6, n7], _ =>
      rw [vu_readValid, vu_readValue]
      have hget : ∀ d : Nat,
          [n0, n1, n2, n3, n4, n5, n6, n7].getD 0 d = n0
          ∧ [n0, n1, n2, n3, n4, n5, n6, n7].getD 1 d = n1
          ∧ [n0, n1, n2, n3, n4, n5, n6, n7].getD 2 d = n2
          ∧ [n0, n1, n2, n3, n4, n5, n6, n7].getD 3 d = n3
          ∧ [n0, n1, n2, n3, n4, n5, n6, n7].getD 4 d = n4
          ∧ [n0, n1, n2, n3, n4, n5, n6, n7].getD 5 d = n5
          ∧ [n0, n1, n2, n3, n4, n5, n6, n7].getD 6 d = n6
          ∧ [n0, n1, n2, n3, n4, n5, n6, n7].getD 7 d = n7 :=
        fun d => ⟨rfl, rfl, rfl, rfl, rfl, rfl, rfl, rfl⟩
      obtain ⟨g0, g1, g2, g3, g4, g5, g6, g7⟩ := hget 0
      rw [g0, g1, g2, g3, g4, g5, g6, g7]
      simp only [List.mem_cons, List.not_mem_nil, or_false, forall_eq_or_imp, forall_eq] at hmem
      obtain ⟨h0, h1, h2, h3, h4, h5, h6, h7⟩ := hmem
      simp only [List.cons.injEq, and_true]
      refine ⟨by omega, by omega, by omega, by omega, by omega, by omega, by omega, by omega⟩

/-- C2 witness: the amended round-trip and verify characterization
evaluated at concrete in-range inputs. -/
theorem C2_roundtrip_amended_witness :
    HelloStruct.readId (HelloStruct.encode 70000) = 70000
    ∧ BalloonCreatedStruct.readHue (BalloonCreatedStruct.encode 1 2 3 4 200) = 200
    ∧ SetUsernameStruct.readValue (SetUsernameStruct.encode 3 aliceBytes) = aliceBytes
    ∧ (HelloStruct.verify [0, 1, 2, 3, 4] = true
        ↔ (5 : Nat) = HelloStruct.size ∧ getUint8 [0, 1, 2, 3, 4] 0 = MessageKind.Hello) := by
  refine ⟨C2_roundtrip_amended.1 70000 (by decide), ?_, ?_, ?_⟩
  · exact (C2_roundtrip_amended.2.2.2.1 1 2 3 4 200 (by decide) (by decide) (by decide)
      (by decide) (by decide)).2.2.2.2
  · exact (C2_roundtrip_amended.2.2.2.2.2.1 3 aliceBytes (by decide) (by decide)
      (by decide)).2
  · have h := C2_roundtrip_amended.2.2.2.2.2.2.2.1 [0, 1, 2, 3, 4]
    simpa using h

/-! ### C10 — requester-id field width -/

/-- C10: the `SetUsernameStruct` id field is a single byte while `Hello`
carries the assigned id as a 32-bit integer: writing any id into the
name-request id field and reading it back yields `id % 256`, so for any
id of 256 or more the request cannot carry the requester's id faithfully;
the message handler then files the request under the truncated key, so
the request is attributed to the player whose id is congruent mod 256. -/
theorem C10_id_truncation (id hid : Nat) (name : List Nat) (st : ServerState) (connId : Nat)
    (hbig : 256 ≤ id) (hhid : hid < 4294967296) :
    SetUsernameStruct.readId (SetUsernameStruct.encode id name) = id % 256
    ∧ SetUsernameStruct.readId (SetUsernameStruct.encode id name) ≠ id
    ∧ HelloStruct.readId (HelloStruct.encode hid) = hid
    ∧ (handleMessage connId (Frame.binary (SetUsernameStruct.encode id name)) st).1.requestUsernameIds
        = mapSet st.requestUsernameIds (id % 256)
            { ref := st.refCounter,
              data := SetUsernameStruct.readValue (SetUsernameStruct.encode id name) } := by
  refine ⟨su_readId id name, ?_, ?_, ?_⟩
  · rw [su_readId]
    have := Nat.mod_lt id (show 0 < 256 by decide)
    omega
  · rw [hello_readId]; omega
  · simp only [handleMessage, su_verify_encode, if_true, su_readId]

/-- C10 witness: a name request from the player with id 300 is read back
as id 44 and filed under key 44. -/
theorem C10_id_truncation_witness :
    SetUsernameStruct.readId (SetUsernameStruct.encode 300 aliceBytes) = 44
    ∧ SetUsernameStruct.readId (SetUsernameStruct.encode 300 aliceBytes) ≠ 300
    ∧ HelloStruct.readId (HelloStruct.encode 70000) = 70000
    ∧ (handleMessage 0 (Frame.binary (SetUsernameStruct.encode 300 aliceBytes))
          initialState).1.requestUsernameIds
        = mapSet initialState.requestUsernameIds 44
            { ref := initialState.refCounter,
              data := SetUsernameStruct.readValue (SetUsernameStruct.encode 300 aliceBytes) } := by
  have h := C10_id_truncation 300 70000 aliceBytes initialState 0 (by decide) (by decide)
  exact ⟨h.1, h.2.1, h.2.2.1, h.2.2.2⟩

/-! ### C6 — connection capacity -/

/-- C6: with `SERVER_LIMIT = 10` connections live, a further connection
attempt is rejected: the rejected-players counter is incremented, the
transport is closed with no id assigned (the id counter is untouched)
and no join is recorded (so no `Hello` is ever addressed to it), while
every other component of the state — in particular the ten existing
players — is unchanged. -/
theorem C6_capacity_reject (st : ServerState) (h : st.players.length = SERVER_LIMIT) :
    handleConnection st
      = ({ st with playersRejected := st.playersRejected + 1 }, ConnResult.rejected) := by
  rw [handleConnection, if_pos (le_of_eq h.symm)]

/-- C6 witness: the full state reached by ten accepted connections
rejects the eleventh. -/
theorem C6_capacity_reject_witness :
    handleConnection c6State
      = ({ c6State with playersRejected := c6State.playersRejected + 1 }, ConnResult.rejected) :=
  C6_capacity_reject c6State (by decide)

/-! ### C8 — malformed inbound frames -/

/-- C8: an inbound frame that is not binary, or whose buffer fails the
verify check of every layout the server accepts (`SetUsername`, `Ping`,
`BalloonPop`), closes the connection immediately and increments the
malformed-message counter, with no other change to the server state: the
handler returns the state unchanged except for `bsMessages` and reports
the connection closed. -/
theorem C8_malformed_fatal (connId : Nat) (f : Frame) (st : ServerState)
    (h : malformedFrame f = true) :
    handleMessage connId f st = ({ st with bsMessages := st.bsMessages + 1 }, true) := by
  cases f with
  | nonBinary => rfl
  | binary b =>
      simp only [malformedFrame, Bool.and_eq_true, Bool.not_eq_true'] at h
      obtain ⟨⟨h1, h2⟩, h3⟩ := h
      simp only [handleMessage, h1, h2, h3, if_false, Bool.false_eq_true]

/-- C8 witness: a three-byte buffer matches no accepted layout and is
fatal. -/
theorem C8_malformed_fatal_witness :
    handleMessage 0 (Frame.binary [1, 2, 3]) initialState
      = ({ initialState with bsMessages := initialState.bsMessages + 1 }, true) :=
  C8_malformed_fatal 0 (Frame.binary [1, 2, 3]) initialState (by decide)

/-! ### C1 — pop removes the wrong key -/

/-- C1: evaluating the code at the failing input.  In the reachable state
with one named player (connection id 0) and one live balloon (id 1), the
player's pop request for balloon 1 is processed — it is recorded in the
pop accumulator as `(balloon 1, player 0)` and `balloonCounter` drops to
0 — yet balloon 1 is still in the live-balloon map afterwards, because
the handler executes `balloons.delete(id)` with the connection's id 0
instead of the balloon's id 1. -/
theorem C1_pop_removes_wrong_key :
    mapGet (runTrace c1Trace).balloons 1
      = some { id := 1, x := 0, y := 0, hue := 0, timestamp := 0 }
    ∧ (runTrace c1Trace).poppedBalloonIds = [(1, 0)]
    ∧ (runTrace c1Trace).balloonCounter = 0 := by
  refine ⟨?_, ?_, ?_⟩ <;> decide

/-! ### C3 — display-name uniqueness -/

/-- C3: evaluating the code at the failing input.  Player 0 claims
"alice" in one tick; in the next tick player 1 requests the byte-equal
name.  The uniqueness check compares `Uint8Array` objects with `===`
(reference equality), and the two requests decoded to distinct objects
(refs 0 and 1), so the duplicate is accepted: afterwards both live
connections hold byte-identical accepted names. -/
theorem C3_duplicate_name_accepted :
    unameAt (runTrace c3Trace).players 0 = some (some { ref := 0, data := aliceBytes })
    ∧ unameAt (runTrace c3Trace).players 1 = some (some { ref := 1, data := aliceBytes }) := by
  refine ⟨?_, ?_⟩ <;> decide

/-! ### C5 — pop idempotence -/

/-- C5: evaluating the code at the failing input.  The same pop request
(balloon 1, player 0) is applied in two consecutive ticks.  Because the
balloon is never removed from the map (C1), the second pop is processed
like the first and the player is awarded the 5-point increment twice —
score 10 — while balloon 1 is still live. -/
theorem C5_double_pop_double_award :
    (mapGet (runTrace c5Trace).players 0).map (fun p => p.score) = some 10
    ∧ mapGet (runTrace c5Trace).balloons 1
        = some { id := 1, x := 0, y := 0, hue := 0, timestamp := 0 } := by
  refine ⟨?_, ?_⟩ <;> decide

/-! ### Tick-loop lemmas for the spawn-ceiling claim -/

/-- A tick with empty accumulators and a failed (or inapplicable) spawn
draw only advances the tick counter and sends nothing. -/
theorem tick_idle (x y hue ts : Nat) (st : ServerState)
    (hpop : st.poppedBalloonIds = []) (hreq : st.requestUsernameIds = [])
    (hsu : st.setUsernameIds = []) (hupd : st.updatedScorePlayerIds = [])
    (hjoin : st.joinedIds = []) (hping : st.pingIds = [])
    (hcreated : st.createdBalloonIds = []) :
    tick false x y hue ts st = ({ st with ticksCount := st.ticksCount + 1 }, []) := by
  simp only [tick, hpop, hreq, hsu, hupd, hjoin, hping, hcreated,
    popStep, usernameStep, snapshotSends, scoreSends, helloSends, pongSends,
    spawnStep, createdSends, List.isEmpty_nil, if_true, List.filterMap_nil,
    List.flatMap_nil, List.append_nil, List.nil_append]
  simp

/-- Running `n` idle ticks from a state with empty accumulators advances
the tick counter by `n` and changes nothing else. -/
theorem idleRun (n : Nat) (st : ServerState)
    (hpop : st.poppedBalloonIds = []) (hreq : st.requestUsernameIds = [])
    (hsu : st.setUsernameIds = []) (hupd : st.updatedScorePlayerIds = [])
    (hjoin : st.joinedIds = []) (hping : st.pingIds = [])
    (hcreated : st.createdBalloonIds = []) :
    List.foldl stepEvent st (List.replicate n idleTick)
      = { st with ticksCount := st.ticksCount + n } := by
  induction n generalizing st with
  | zero => simp
  | succ k ih =>
      rw [List.replicate_succ, List.foldl_cons]
      have hstep : stepEvent st idleTick = { st with ticksCount := st.ticksCount + 1 } := by
        show (tick false 0 0 0 0 st).1 = _
        rw [tick_idle 0 0 0 0 st hpop hreq hsu hupd hjoin hping hcreated]
      rw [hstep]
      rw [ih { st with ticksCount := st.ticksCount + 1 } hpop hreq hsu hupd hjoin hping hcreated]
      simp [Nat.add_assoc]
      omega

/-- A tick on an accumulator-empty state whose spawn draw succeeds, with
a named player present, the balloon counter below the ceiling and the
tick counter on a spawn window, inserts exactly one balloon under a
fresh id. -/
theorem tick_spawn (x y hue ts : Nat) (st : ServerState)
    (hpop : st.poppedBalloonIds = []) (hreq : st.requestUsernameIds = [])
    (hsu : st.setUsernameIds = []) (hupd : st.updatedScorePlayerIds = [])
    (hjoin : st.joinedIds = []) (hping : st.pingIds = [])
    (hcreated : st.createdBalloonIds = [])
    (hnamed : (st.players.filter (fun e => e.2.username.isSome)).length ≠ 0)
    (hcnt : st.ticksCount % (SERVER_FPS / 2) = 0)
    (hbc : st.balloonCounter < (BALLOON_LIMIT : Int)) :
    (tick true x y hue ts st).1
      = { st with
            balloons := mapSet st.balloons st.idCounter
              { id := st.idCounter, x := x, y := y, hue := hue, timestamp := ts },
            idCounter := st.idCounter + 1,
            balloonCounter := st.balloonCounter + 1,
            ticksCount := st.ticksCount + 1 } := by
  simp only [tick, hpop, hreq, hsu, hupd, hjoin, hping, hcreated,
    popStep, usernameStep, snapshotSends, scoreSends, helloSends, pongSends,
    spawnStep, createdSends, List.isEmpty_nil, if_true, List.filterMap_nil,
    List.flatMap_nil, List.append_nil, List.nil_append]
  rw [if_pos ⟨hnamed, hbc, hcnt, trivial⟩]

/-- One spawn window (`c4Block`): a successful spawn tick followed by 29
idle ticks inserts one balloon and advances the tick counter by 30,
returning it to a spawn window. -/
theorem blockRun (st : ServerState)
    (hpop : st.poppedBalloonIds = []) (hreq : st.requestUsernameIds = [])
    (hsu : st.setUsernameIds = []) (hupd : st.updatedScorePlayerIds = [])
    (hjoin : st.joinedIds = []) (hping : st.pingIds = [])
    (hcreated : st.createdBalloonIds = [])
    (hnamed : (st.players.filter (fun e => e.2.username.isSome)).length ≠ 0)
    (hcnt : st.ticksCount % (SERVER_FPS / 2) = 0)
    (hbc : st.balloonCounter < (BALLOON_LIMIT : Int)) :
    List.foldl stepEvent st c4Block
      = { st with
            balloons := mapSet st.balloons st.idCounter
              { id := st.idCounter, x := 0, y := 0, hue := 0, timestamp := 0 },
            idCounter := st.idCounter + 1,
            balloonCounter := st.balloonCounter + 1,
            ticksCount := st.ticksCount + 30 } := by
  show List.foldl stepEvent st (spawnTick :: List.replicate 29 idleTick) = _
  rw [List.foldl_cons]
  have hstep : stepEvent st spawnTick
      = { st with
            balloons := mapSet st.balloons st.idCounter
              { id := st.idCounter, x := 0, y := 0, hue := 0, timestamp := 0 },
            idCounter := st.idCounter + 1,
            balloonCounter := st.balloonCounter + 1,
            ticksCount := st.ticksCount + 1 } := by
    show (tick true 0 0 0 0 st).1 = _
    exact tick_spawn 0 0 0 0 st hpop hreq hsu hupd hjoin hping hcreated hnamed hcnt hbc
  rw [hstep]
  rw [idleRun 29
    { st with
        balloons := mapSet st.balloons st.idCounter
          { id := st.idCounter, x := 0, y := 0, hue := 0, timestamp := 0 },
        idCounter := st.idCounter + 1,
        balloonCounter := st.balloonCounter + 1,
        ticksCount := st.ticksCount + 1 }
    hpop hreq hsu hupd hjoin hping hcreated]

/-- Running `k` consecutive spawn windows from an accumulator-empty state
on a spawn window with a named player inserts `k` balloons under
consecutive fresh ids, provided the balloon counter stays below the
ceiling throughout. -/
theorem blocksRun (k : Nat) (st : ServerState)
    (hpop : st.poppedBalloonIds = []) (hreq : st.requestUsernameIds = [])
    (hsu : st.setUsernameIds = []) (hupd : st.updatedScorePlayerIds = [])
    (hjoin : st.joinedIds = []) (hping : st.pingIds = [])
    (hcreated : st.createdBalloonIds = [])
    (hnamed : (st.players.filter (fun e => e.2.username.isSome)).length ≠ 0)
    (hcnt : st.ticksCount % (SERVER_FPS / 2) = 0)
    (hbc : st.balloonCounter + (k : Int) ≤ (BALLOON_LIMIT : Int)) :
    List.foldl stepEvent st (c4Blocks k)
      = { st with
            balloons := addBalloons k st.idCounter st.balloons,
            idCounter := st.idCounter + k,
            balloonCounter := st.balloonCounter + (k : Int),
            ticksCount := st.ticksCount + 30 * k } := by
  induction k generalizing st with
  | zero => simp [c4Blocks, addBalloons]
  | succ m ih =>
      show List.foldl stepEvent st (c4Block ++ c4Blocks m) = _
      rw [List.foldl_append]
      rw [blockRun st hpop hreq hsu hupd hjoin hping hcreated hnamed hcnt
        (by push_cast at hbc ⊢; omega)]
      rw [ih
        { st with
            balloons := mapSet st.balloons st.idCounter
              { id := st.idCounter, x := 0, y := 0, hue := 0, timestamp := 0 },
            idCounter := st.idCounter + 1,
            balloonCounter := st.balloonCounter + 1,
            ticksCount := st.ticksCount + 30 }
        hpop hreq hsu hupd hjoin hping hcreated hnamed (by simp [SERVER_FPS] at hcnt ⊢; omega)
        (by push_cast at hbc ⊢; omega)]
      simp only [addBalloons]
      congr 1 <;> push_cast <;> omega

/-! ### C4 — spawn ceiling -/

/-- C4: evaluating the code along the failing trace.  One player connects
and gets named; ten spawn windows (one spawn per 30 ticks) fill the world
to the ceiling of 10; the player pops balloon 1, which decrements
`balloonCounter` to 9 but — because the handler deletes the connection id
instead of the balloon id — leaves the map at 10 entries; the next spawn
window sees `balloonCounter < BALLOON_LIMIT` and admits an eleventh live
balloon.  So the live-collectible map exceeds the configured ceiling of
10 in a reachable state. -/
theorem C4_ceiling_exceeded :
    (runTrace c4Trace).balloons.length = 11 ∧ BALLOON_LIMIT = 10 := by
  refine ⟨?_, rfl⟩
  show (List.foldl stepEvent initialState c4Trace).balloons.length = 11
  have hsplit : c4Trace
      = [Event.connect, suMsg 0, spawnTick]
        ++ (List.replicate 29 idleTick ++ (c4Blocks 9 ++ [popMsg, spawnTick])) := by
    simp [c4Trace, List.append_assoc]
  rw [hsplit, List.foldl_append, List.foldl_append, List.foldl_append]
  have h1 : List.foldl stepEvent initialState [Event.connect, suMsg 0, spawnTick]
      = c4StateA := by decide
  rw [h1]
  rw [idleRun 29 c4StateA rfl rfl rfl rfl rfl rfl rfl]
  have h2 : ({ c4StateA with ticksCount := c4StateA.ticksCount + 29 } : ServerState)
      = { c4StateA with ticksCount := 30 } := by decide
  rw [h2]
  rw [blocksRun 9 { c4StateA with ticksCount := 30 } rfl rfl rfl rfl rfl rfl rfl
    (by decide) (by decide) (by decide)]
  decide

/-! ### Map and step lemmas for the broadcast-filter claims -/

theorem mapGet_cons {α : Type} (a : Nat) (x : α) (l : List (Nat × α)) (r : Nat) :
    mapGet ((a, x) :: l) r = if a = r then some x else mapGet l r := by
  by_cases h : a = r
  · subst h; simp [mapGet, List.find?_cons]
  · have hb : (a == r) = false := beq_eq_false_iff_ne.mpr h
    simp only [mapGet, List.find?_cons, hb, if_neg h]

theorem mapGet_inplace_ne {α : Type} (m : List (Nat × α)) (k : Nat) (v : α) (r : Nat)
    (hr : r ≠ k) :
    mapGet (m.map (fun e => if e.1 == k then (k, v) else e)) r = mapGet m r := by
  induction m with
  | nil => rfl
  | cons e rest ih =>
      obtain ⟨a, x⟩ := e
      by_cases ha : a = k
      · subst ha
        simp only [List.map_cons, beq_self_eq_true, if_true]
        rw [mapGet_cons, mapGet_cons, if_neg (fun h => hr h.symm),
          if_neg (fun h => hr h.symm), ih]
      · have hb : (a == k) = false := beq_eq_false_iff_ne.mpr ha
        simp only [List.map_cons, hb, Bool.false_eq_true, if_false]
        rw [mapGet_cons, mapGet_cons, ih]

theorem mapGet_inplace_eq {α : Type} (m : List (Nat × α)) (k : Nat) (v : α)
    (h : m.any (fun e => e.1 == k) = true) :
    mapGet (m.map (fun e => if e.1 == k then (k, v) else e)) k = some v := by
  induction m with
  | nil => simp at h
  | cons e rest ih =>
      obtain ⟨a, x⟩ := e
      by_cases ha : a = k
      · subst ha
        simp only [List.map_cons, beq_self_eq_true, if_true]
        rw [mapGet_cons, if_pos rfl]
      · have hb : (a == k) = false := beq_eq_false_iff_ne.mpr ha
        simp only [List.map_cons, hb, Bool.false_eq_true, if_false]
        rw [mapGet_cons, if_neg ha]
        apply ih
        simp only [List.any_cons, Bool.or_eq_true, hb, Bool.false_eq_true, false_or] at h
        exact h

theorem mapGet_mapSet_present {α : Type} (m : List (Nat × α)) (k : Nat) (v : α) (r : Nat)
    (h : m.any (fun e => e.1 == k) = true) :
    mapGet (mapSet m k v) r = if r = k then some v else mapGet m r := by
  unfold mapSet
  rw [if_pos h]
  by_cases hr : r = k
  · subst hr; rw [if_pos rfl, mapGet_inplace_eq m r v h]
  · rw [if_neg hr, mapGet_inplace_ne m k v r hr]

theorem any_key_of_mapGet {α : Type} (m : List (Nat × α)) (k : Nat) (v : α)
    (h : mapGet m k = some v) : m.any (fun e => e.1 == k) = true := by
  induction m with
  | nil => simp [mapGet] at h
  | cons e rest ih =>
      obtain ⟨a, x⟩ := e
      rw [mapGet_cons] at h
      by_cases ha : a = k
      · simp [ha]
      · rw [if_neg ha] at h
        simp only [List.any_cons, Bool.or_eq_true, beq_iff_eq]
        exact Or.inr (ih h)

theorem keys_mapSet_of_key_present {α : Type} (m : List (Nat × α)) (k : Nat) (v : α)
    (h : m.any (fun e => e.1 == k) = true) :
    (mapSet m k v).map Prod.fst = m.map Prod.fst := by
  unfold mapSet
  rw [if_pos h, List.map_map, List.map_congr_left]
  intro e _
  by_cases he : e.1 = k
  · simp [he]
  · have hb : (e.1 == k) = false := beq_eq_false_iff_ne.mpr he
    simp only [Function.comp_apply, hb, Bool.false_eq_true, if_false]

theorem setAdd_mem (s : List Nat) (k r : Nat) (h : r ∈ setAdd s k) : r ∈ s ∨ r = k := by
  unfold setAdd at h
  by_cases hc : s.contains k
  · rw [if_pos hc] at h; exact Or.inl h
  · rw [if_neg hc] at h
    rcases List.mem_append.mp h with h1 | h2
    · exact Or.inl h1
    · simp at h2; exact Or.inr h2

theorem unameAt_scorePop (ps : List (Nat × PlayerOnServer)) (pid r : Nat) :
    unameAt (scorePop ps pid) r = unameAt ps r := by
  unfold unameAt scorePop
  induction ps with
  | nil => rfl
  | cons e rest ih =>
      obtain ⟨a, x⟩ := e
      by_cases ha : a = pid
      · subst ha
        simp only [List.map_cons, beq_self_eq_true, if_true]
        rw [mapGet_cons, mapGet_cons]
        by_cases hr : a = r
        · simp [hr]
        · rw [if_neg hr, if_neg hr]; exact ih
      · have hb : (a == pid) = false := beq_eq_false_iff_ne.mpr ha
        simp only [List.map_cons, hb, Bool.false_eq_true, if_false]
        rw [mapGet_cons, mapGet_cons]
        by_cases hr : a = r
        · simp [hr]
        · rw [if_neg hr, if_neg hr]; exact ih

theorem keys_scorePop (ps : List (Nat × PlayerOnServer)) (pid : Nat) :
    (scorePop ps pid).map Prod.fst = ps.map Prod.fst := by
  unfold scorePop
  rw [List.map_map, List.map_congr_left]
  intro e _
  by_cases he : e.1 = pid
  · simp [he]
  · have hb : (e.1 == pid) = false := beq_eq_false_iff_ne.mpr he
    simp only [Function.comp_apply, hb, Bool.false_eq_true, if_false]

theorem popStep_unameAt (l : List (Nat × Nat)) (ps : List (Nat × PlayerOnServer))
    (upd : List Nat) (r : Nat) :
    unameAt (popStep l ps upd).1 r = unameAt ps r := by
  induction l generalizing ps upd with
  | nil => rfl
  | cons e rest ih =>
      obtain ⟨bid, pid⟩ := e
      show unameAt (popStep rest _ _).1 r = _
      by_cases hf : (mapGet ps pid).isSome
      · simp only [popStep, hf, if_true]
        rw [ih]
        exact unameAt_scorePop ps pid r
      · simp only [popStep, hf, Bool.false_eq_true, if_false]
        exact ih ps _

theorem popStep_keys (l : List (Nat × Nat)) (ps : List (Nat × PlayerOnServer))
    (upd : List Nat) :
    (popStep l ps upd).1.map Prod.fst = ps.map Prod.fst := by
  induction l generalizing ps upd with
  | nil => rfl
  | cons e rest ih =>
      obtain ⟨bid, pid⟩ := e
      by_cases hf : (mapGet ps pid).isSome
      · simp only [popStep, hf, if_true]
        rw [ih, keys_scorePop]
      · simp only [popStep, hf, Bool.false_eq_true, if_false]
        exact ih ps _

theorem mapGet_of_mem_nodup (ps : List (Nat × PlayerOnServer)) (e : Nat × PlayerOnServer)
    (hmem : e ∈ ps) (hnd : (ps.map Prod.fst).Nodup) : mapGet ps e.1 = some e.2 := by
  induction ps with
  | nil => simp at hmem
  | cons a rest ih =>
      rcases List.mem_cons.mp hmem with h1 | h2
      · subst h1
        obtain ⟨a1, a2⟩ := e
        rw [mapGet_cons, if_pos rfl]
      · obtain ⟨a1, a2⟩ := a
        rw [List.map_cons, List.nodup_cons] at hnd
        have hne : a1 ≠ e.1 := by
          intro hcontra
          exact hnd.1 (hcontra ▸ List.mem_map.mpr ⟨e, h2, rfl⟩)
        rw [mapGet_cons, if_neg hne]
        exact ih h2 hnd.2

theorem namedSendsTo_mem (ps : List (Nat × PlayerOnServer)) (k0 : SendKind)
    (r : Nat) (k : SendKind) (h : (r, k) ∈ namedSendsTo ps k0) :
    k = k0 ∧ ∃ e ∈ ps, e.1 = r ∧ e.2.username.isSome = true := by
  unfold namedSendsTo at h
  rcases List.mem_map.mp h with ⟨e, he, heq⟩
  rcases List.mem_filter.mp he with ⟨hm, hnamed⟩
  obtain ⟨heq1, heq2⟩ := Prod.mk.injEq .. ▸ heq
  exact ⟨heq2.symm, e, hm, heq1, hnamed⟩

theorem entry_named_namedKey (ps : List (Nat × PlayerOnServer)) (e : Nat × PlayerOnServer)
    (hmem : e ∈ ps) (hnamed : e.2.username.isSome = true)
    (hnd : (ps.map Prod.fst).Nodup) : namedKey ps e.1 := by
  rcases Option.isSome_iff_exists.mp hnamed with ⟨u, hu⟩
  exact ⟨u, by rw [unameAt, mapGet_of_mem_nodup ps e hmem hnd, Option.map_some', hu]⟩

theorem namedKey_of_unameAt_eq (ps ps' : List (Nat × PlayerOnServer)) (r : Nat)
    (he : unameAt ps' r = unameAt ps r) (h : namedKey ps' r) : namedKey ps r := by
  rcases h with ⟨u, hu⟩
  exact ⟨u, he ▸ hu⟩

theorem popStep_sends (l : List (Nat × Nat)) (ps : List (Nat × PlayerOnServer))
    (upd : List Nat) (r : Nat) (k : SendKind)
    (hnd : (ps.map Prod.fst).Nodup)
    (h : (r, k) ∈ (popStep l ps upd).2.2) :
    k = SendKind.BalloonPop ∧ namedKey ps r := by
  induction l generalizing ps upd with
  | nil => simp [popStep] at h
  | cons e rest ih =>
      obtain ⟨bid, pid⟩ := e
      by_cases hf : (mapGet ps pid).isSome
      · simp only [popStep, hf, if_true] at h
        rcases List.mem_append.mp h with h1 | h2
        · rcases namedSendsTo_mem _ _ _ _ h1 with ⟨hk, e, hm, he1, he2⟩
          have hnd1 : ((scorePop ps pid).map Prod.fst).Nodup := by
            rw [keys_scorePop]; exact hnd
          have := entry_named_namedKey _ e hm he2 hnd1
          exact ⟨hk, namedKey_of_unameAt_eq ps _ r
            (he1 ▸ unameAt_scorePop ps pid e.1) (he1 ▸ this)⟩
        · have hnd1 : ((scorePop ps pid).map Prod.fst).Nodup := by
            rw [keys_scorePop]; exact hnd
          rcases ih (scorePop ps pid) _ hnd1 h2 with ⟨hk, hn⟩
          exact ⟨hk, namedKey_of_unameAt_eq ps _ r (unameAt_scorePop ps pid r) hn⟩
      · simp only [popStep, hf, Bool.false_eq_true, if_false] at h
        rcases List.mem_append.mp h with h1 | h2
        · rcases namedSendsTo_mem _ _ _ _ h1 with ⟨hk, e, hm, he1, he2⟩
          exact ⟨hk, he1 ▸ entry_named_namedKey _ e hm he2 hnd⟩
        · exact ih ps _ hnd h2

theorem not_namedKey_of_unnamed (ps : List (Nat × PlayerOnServer)) (r : Nat)
    (p : PlayerOnServer) (hp : mapGet ps r = some p) (hu : p.username = none) :
    ¬ namedKey ps r := by
  rintro ⟨u, hnu⟩
  rw [unameAt, hp, Option.map_some', hu] at hnu
  exact Option.noConfusion (Option.some.injEq .. ▸ hnu)

theorem unameAt_mapSet_ne (ps : List (Nat × PlayerOnServer)) (pid : Nat)
    (v : PlayerOnServer) (r : Nat) (hpresent : (ps.any fun e => e.1 == pid) = true)
    (hr : r ≠ pid) : unameAt (mapSet ps pid v) r = unameAt ps r := by
  unfold unameAt
  rw [mapGet_mapSet_present _ _ _ _ hpresent, if_neg hr]

theorem unameAt_mapSet_eq (ps : List (Nat × PlayerOnServer)) (pid : Nat)
    (v : PlayerOnServer) (hpresent : (ps.any fun e => e.1 == pid) = true) :
    unameAt (mapSet ps pid v) pid = some v.username := by
  unfold unameAt
  rw [mapGet_mapSet_present _ _ _ _ hpresent, if_pos rfl, Option.map_some']

theorem usernameStep_unameAt_mono (l : List (Nat × JSArr))
    (ps : List (Nat × PlayerOnServer)) (su : List Nat) (r : Nat)
    (h : namedKey ps r) : namedKey (usernameStep l ps su).1 r := by
  induction l generalizing ps su with
  | nil => exact h
  | cons e rest ih =>
      obtain ⟨pid, uname⟩ := e
      cases hm : mapGet ps pid with
      | none => simp only [usernameStep, hm]; exact ih ps su h
      | some p =>
          simp only [usernameStep, hm]
          by_cases hv : !(refEqUsername ps uname)
          · simp only [hv, if_true]
            apply ih
            have hpresent := any_key_of_mapGet ps pid p hm
            by_cases hr : r = pid
            · subst hr
              exact ⟨uname, unameAt_mapSet_eq ps r _ hpresent⟩
            · exact namedKey_of_unameAt_eq _ ps r (unameAt_mapSet_ne ps pid _ r hpresent hr).symm h
          · simp only [hv, Bool.false_eq_true, if_false]
            exact ih ps _ h

theorem usernameStep_unameAt_skip (l : List (Nat × JSArr))
    (ps : List (Nat × PlayerOnServer)) (su : List Nat) (r : Nat)
    (hskip : ∀ e ∈ l, e.1 ≠ r) :
    unameAt (usernameStep l ps su).1 r = unameAt ps r := by
  induction l generalizing ps su with
  | nil => rfl
  | cons e rest ih =>
      obtain ⟨pid, uname⟩ := e
      have hpid : pid ≠ r := hskip (pid, uname) (List.mem_cons_self _ _)
      have hrest : ∀ e ∈ rest, e.1 ≠ r := fun e he => hskip e (List.mem_cons_of_mem _ he)
      cases hm : mapGet ps pid with
      | none => simp only [usernameStep, hm]; exact ih ps su hrest
      | some p =>
          simp only [usernameStep, hm]
          by_cases hv : !(refEqUsername ps uname)
          · simp only [hv, if_true]
            rw [ih _ _ hrest]
            exact unameAt_mapSet_ne ps pid _ r (any_key_of_mapGet ps pid p hm)
              (fun hc => hpid hc.symm)
          · simp only [hv, Bool.false_eq_true, if_false]
            exact ih ps _ hrest

theorem usernameStep_keys (l : List (Nat × JSArr))
    (ps : List (Nat × PlayerOnServer)) (su : List Nat) :
    (usernameStep l ps su).1.map Prod.fst = ps.map Prod.fst := by
  induction l generalizing ps su with
  | nil => rfl
  | cons e rest ih =>
      obtain ⟨pid, uname⟩ := e
      cases hm : mapGet ps pid with
      | none => simp only [usernameStep, hm]; exact ih ps su
      | some p =>
          simp only [usernameStep, hm]
          by_cases hv : !(refEqUsername ps uname)
          · simp only [hv, if_true]
            rw [ih, keys_mapSet_of_key_present _ _ _ (any_key_of_mapGet ps pid p hm)]
          · simp only [hv, Bool.false_eq_true, if_false]
            exact ih ps _

theorem usernameStep_sends (l : List (Nat × JSArr))
    (ps : List (Nat × PlayerOnServer)) (su : List Nat) (r : Nat) (k : SendKind)
    (h : (r, k) ∈ (usernameStep l ps su).2.2) :
    k = SendKind.ValidUsername ∧ ∃ e ∈ l, e.1 = r := by
  induction l generalizing ps su with
  | nil => simp [usernameStep] at h
  | cons e rest ih =>
      obtain ⟨pid, uname⟩ := e
      cases hm : mapGet ps pid with
      | none =>
          simp only [usernameStep, hm] at h
          rcases ih ps su h with ⟨hk, e, hmem, he⟩
          exact ⟨hk, e, List.mem_cons_of_mem _ hmem, he⟩
      | some p =>
          simp only [usernameStep, hm] at h
          rcases List.mem_cons.mp h with h1 | h2
          · obtain ⟨h1a, h1b⟩ := Prod.mk.injEq .. ▸ h1
            exact ⟨h1b, (pid, uname), List.mem_cons_self _ _, h1a.symm⟩
          · rcases ih _ _ h2 with ⟨hk, e, hmem, he⟩
            exact ⟨hk, e, List.mem_cons_of_mem _ hmem, he⟩

theorem usernameStep_su_mem (l : List (Nat × JSArr))
    (ps : List (Nat × PlayerOnServer)) (su : List Nat) (r : Nat)
    (h : r ∈ (usernameStep l ps su).2.1) :
    r ∈ su ∨ namedKey (usernameStep l ps su).1 r := by
  induction l generalizing ps su with
  | nil => exact Or.inl h
  | cons e rest ih =>
      obtain ⟨pid, uname⟩ := e
      cases hm : mapGet ps pid with
      | none =>
          simp only [usernameStep, hm] at h ⊢
          exact ih ps su h
      | some p =>
          simp only [usernameStep, hm] at h ⊢
          by_cases hv : !(refEqUsername ps uname)
          · simp only [hv, if_true] at h ⊢
            rcases ih _ _ h with h1 | h2
            · rcases setAdd_mem su pid r h1 with hin | heq
              · exact Or.inl hin
              · subst heq
                refine Or.inr (usernameStep_unameAt_mono _ _ _ r ?_)
                exact ⟨uname, unameAt_mapSet_eq ps r _ (any_key_of_mapGet ps r p hm)⟩
            · exact Or.inr h2
          · simp only [hv, Bool.false_eq_true, if_false] at h ⊢
            exact ih ps su h

theorem snapshotSends_mem (ps : List (Nat × PlayerOnServer)) (su : List Nat)
    (r : Nat) (k : SendKind) (h : (r, k) ∈ snapshotSends ps su) :
    (k = SendKind.Players ∧ r ∈ su)
    ∨ (k = SendKind.PlayersJoined ∧ ∃ e ∈ ps, e.1 = r ∧ e.2.username.isSome = true) := by
  unfold snapshotSends at h
  by_cases he : su.isEmpty
  · rw [if_pos he] at h; simp at h
  · rw [if_neg he] at h
    rcases List.mem_append.mp h with h1 | h2
    · rcases List.mem_filterMap.mp h1 with ⟨pid, hpid, hf⟩
      by_cases hg : (mapGet ps pid).isSome
      · rw [if_pos hg] at hf
        obtain ⟨ha, hb⟩ := Prod.mk.injEq .. ▸ (Option.some.injEq .. ▸ hf)
        exact Or.inl ⟨hb.symm, ha ▸ hpid⟩
      · rw [if_neg hg] at hf; exact absurd hf (Option.noConfusion)
    · rcases List.mem_map.mp h2 with ⟨e, he2, heq⟩
      rcases List.mem_filter.mp he2 with ⟨hm, hcond⟩
      obtain ⟨ha, hb⟩ := Prod.mk.injEq .. ▸ heq
      rcases Bool.and_eq_true .. ▸ hcond with ⟨hnamed, _⟩
      exact Or.inr ⟨hb.symm, e, hm, ha, hnamed⟩

theorem scoreSends_mem (ps : List (Nat × PlayerOnServer)) (upd : List Nat)
    (r : Nat) (k : SendKind) (h : (r, k) ∈ scoreSends ps upd) :
    k = SendKind.PlayersScores ∧ ∃ e ∈ ps, e.1 = r ∧ e.2.username.isSome = true := by
  unfold scoreSends at h
  by_cases he : upd.isEmpty
  · rw [if_pos he] at h; simp at h
  · rw [if_neg he] at h
    rcases List.mem_flatMap.mp h with ⟨_, _, hmem⟩
    exact namedSendsTo_mem ps _ r k hmem

theorem helloSends_mem (ps : List (Nat × PlayerOnServer)) (joined : List Nat)
    (r : Nat) (k : SendKind) (h : (r, k) ∈ helloSends ps joined) :
    k = SendKind.Hello := by
  unfold helloSends at h
  rcases List.mem_filterMap.mp h with ⟨jid, _, hf⟩
  by_cases hg : (mapGet ps jid).isSome
  · rw [if_pos hg] at hf
    obtain ⟨_, hb⟩ := Prod.mk.injEq .. ▸ (Option.some.injEq .. ▸ hf)
    exact hb.symm
  · rw [if_neg hg] at hf; exact absurd hf (Option.noConfusion)

theorem pongSends_mem (ps : List (Nat × PlayerOnServer)) (pings : List (Nat × Nat))
    (r : Nat) (k : SendKind) (h : (r, k) ∈ pongSends ps pings) :
    k = SendKind.Pong := by
  unfold pongSends at h
  rcases List.mem_filterMap.mp h with ⟨e, _, hf⟩
  by_cases hg : (mapGet ps e.1).isSome
  · rw [if_pos hg] at hf
    obtain ⟨_, hb⟩ := Prod.mk.injEq .. ▸ (Option.some.injEq .. ▸ hf)
    exact hb.symm
  · rw [if_neg hg] at hf; exact absurd hf (Option.noConfusion)

theorem createdSends_mem (ps : List (Nat × PlayerOnServer)) (bs : List (Nat × Balloon))
    (created : List Nat) (r : Nat) (k : SendKind) (h : (r, k) ∈ createdSends ps bs created) :
    k = SendKind.BalloonCreated ∧ ∃ e ∈ ps, e.1 = r ∧ e.2.username.isSome = true := by
  unfold createdSends at h
  rcases List.mem_flatMap.mp h with ⟨cbid, _, hmem⟩
  by_cases hg : (mapGet bs cbid).isSome
  · rw [if_pos hg] at hmem
    exact namedSendsTo_mem ps _ r k hmem
  · rw [if_neg hg] at hmem; simp at hmem

/-! ### C7 — no gameplay traffic to unnamed connections -/

/-- C7 counterexample: an unnamed connection that pinged receives a
`Pong`, which is neither handshake (`Hello`) nor name-negotiation
(`ValidUsername`) traffic; so the claim's "only handshake and
name-negotiation traffic" is too strong.  The state is reachable: a
single connection joins and pings; the tick sends its `Hello` and then
the `Pong` while the connection is still unnamed. -/
theorem C7_counterexample :
    (tick false 0 0 0 0 c7State).2 = [(0, SendKind.Hello), (0, SendKind.Pong)]
    ∧ unameAt (tick false 0 0 0 0 c7State).1.players 0 = some none := by
  refine ⟨?_, ?_⟩ <;> decide

/-- C7 amended: in any tick started with an empty newly-named set (the
tick loop clears it at the end of every tick) and distinct player keys,
every message the tick sends to a connection that is unnamed in the
tick's final state is `Hello`, `ValidUsername` or `Pong`; the
gameplay-affecting broadcasts (collectible created, collectible pop,
score updates, players-joined and players-snapshot records) go only to
connections that hold a name. -/
theorem C7_unnamed_traffic_amended (st : ServerState) (rnd : Bool) (x y hue ts : Nat)
    (r : Nat) (k : SendKind) (p : PlayerOnServer)
    (hsu : st.setUsernameIds = [])
    (hnd : (st.players.map Prod.fst).Nodup)
    (hmem : (r, k) ∈ (tick rnd x y hue ts st).2)
    (hp : mapGet (tick rnd x y hue ts st).1.players r = some p)
    (hun : p.username = none) :
    k = SendKind.Hello ∨ k = SendKind.ValidUsername ∨ k = SendKind.Pong := by
  have hkeys1 : ((popStep st.poppedBalloonIds st.players st.updatedScorePlayerIds).1.map
      Prod.fst).Nodup := by
    rw [popStep_keys]; exact hnd
  have hkeys2 : (((usernameStep st.requestUsernameIds
      (popStep st.poppedBalloonIds st.players st.updatedScorePlayerIds).1
      st.setUsernameIds).1).map Prod.fst).Nodup := by
    rw [usernameStep_keys, popStep_keys]; exact hnd
  have hfinal : (tick rnd x y hue ts st).1.players
      = (usernameStep st.requestUsernameIds
          (popStep st.poppedBalloonIds st.players st.updatedScorePlayerIds).1
          st.setUsernameIds).1 := rfl
  rw [hfinal] at hp
  have hnot : ¬ namedKey (usernameStep st.requestUsernameIds
      (popStep st.poppedBalloonIds st.players st.updatedScorePlayerIds).1
      st.setUsernameIds).1 r := not_namedKey_of_unnamed _ r p hp hun
  have hsends : (tick rnd x y hue ts st).2
      = (popStep st.poppedBalloonIds st.players st.updatedScorePlayerIds).2.2
        ++ ((usernameStep st.requestUsernameIds
              (popStep st.poppedBalloonIds st.players st.updatedScorePlayerIds).1
              st.setUsernameIds).2.2
        ++ (snapshotSends (usernameStep st.requestUsernameIds
              (popStep st.poppedBalloonIds st.players st.updatedScorePlayerIds).1
              st.setUsernameIds).1
            (usernameStep st.requestUsernameIds
              (popStep st.poppedBalloonIds st.players st.updatedScorePlayerIds).1
              st.setUsernameIds).2.1
        ++ (scoreSends (usernameStep st.requestUsernameIds
              (popStep st.poppedBalloonIds st.players st.updatedScorePlayerIds).1
              st.setUsernameIds).1
            (popStep st.poppedBalloonIds st.players st.updatedScorePlayerIds).2.1
        ++ (helloSends (usernameStep st.requestUsernameIds
              (popStep st.poppedBalloonIds st.players st.updatedScorePlayerIds).1
              st.setUsernameIds).1 st.joinedIds
        ++ (pongSends (usernameStep st.requestUsernameIds
              (popStep st.poppedBalloonIds st.players st.updatedScorePlayerIds).1
              st.setUsernameIds).1 st.pingIds
        ++ createdSends (usernameStep st.requestUsernameIds
              (popStep st.poppedBalloonIds st.players st.updatedScorePlayerIds).1
              st.setUsernameIds).1
            (spawnStep rnd x y hue ts (usernameStep st.requestUsernameIds
              (popStep st.poppedBalloonIds st.players st.updatedScorePlayerIds).1
              st.setUsernameIds).1 st.balloons st.idCounter st.balloonCounter
              st.ticksCount st.createdBalloonIds).1
            (spawnStep rnd x y hue ts (usernameStep st.requestUsernameIds
              (popStep st.poppedBalloonIds st.players st.updatedScorePlayerIds).1
              st.setUsernameIds).1 st.balloons st.idCounter st.balloonCounter
              st.ticksCount st.createdBalloonIds).2.2.2))))) := by
    simp only [tick, List.append_assoc]
  rw [hsends] at hmem
  rcases List.mem_append.mp hmem with h1 | hmem
  · -- pop broadcast: recipient named at tick start, hence named at the end
    rcases popStep_sends _ _ _ r k hnd h1 with ⟨_, hnamedr⟩
    exact absurd (usernameStep_unameAt_mono _ _ _ r
      (namedKey_of_unameAt_eq _ _ r (popStep_unameAt _ _ _ r).symm hnamedr)) hnot
  rcases List.mem_append.mp hmem with h2 | hmem
  · exact Or.inr (Or.inl (usernameStep_sends _ _ _ r k h2).1)
  rcases List.mem_append.mp hmem with h3 | hmem
  · rcases snapshotSends_mem _ _ r k h3 with ⟨_, hrsu⟩ | ⟨_, e, hm, he1, he2⟩
    · rcases usernameStep_su_mem _ _ _ r hrsu with hin | hnamedr
      · rw [hsu] at hin; simp at hin
      · exact absurd hnamedr hnot
    · exact absurd (he1 ▸ entry_named_namedKey _ e hm he2 hkeys2) hnot
  rcases List.mem_append.mp hmem with h4 | hmem
  · rcases scoreSends_mem _ _ r k h4 with ⟨_, e, hm, he1, he2⟩
    exact absurd (he1 ▸ entry_named_namedKey _ e hm he2 hkeys2) hnot
  rcases List.mem_append.mp hmem with h5 | hmem
  · exact Or.inl (helloSends_mem _ _ r k h5)
  rcases List.mem_append.mp hmem with h6 | h8
  · exact Or.inr (Or.inr (pongSends_mem _ _ r k h6))
  · rcases createdSends_mem _ _ _ r k h8 with ⟨_, e, hm, he1, he2⟩
    exact absurd (he1 ▸ entry_named_namedKey _ e hm he2 hkeys2) hnot

/-- C7 witness: the amended theorem applied at the reachable state of the
counterexample — the `Pong` sent to the unnamed pinging connection is one
of the permitted kinds. -/
theorem C7_unnamed_traffic_amended_witness :
    SendKind.Pong = SendKind.Hello ∨ SendKind.Pong = SendKind.ValidUsername
    ∨ SendKind.Pong = SendKind.Pong :=
  C7_unnamed_traffic_amended c7State false 0 0 0 0 0 SendKind.Pong
    { id := 0, username := none, score := 0 }
    (by decide) (by decide) (by decide) (by decide) (by decide)

theorem find?_recipient_none (l : List Send) (j : Nat) (h : ∀ s ∈ l, s.1 ≠ j) :
    l.find? (fun s => s.1 == j) = none :=
  List.find?_eq_none.mpr (fun x hx hpred => h x hx (by simpa using hpred))

theorem helloSends_find (ps : List (Nat × PlayerOnServer)) (joined : List Nat) (j : Nat)
    (hj : j ∈ joined) (hg : (mapGet ps j).isSome = true) :
    (helloSends ps joined).find? (fun s => s.1 == j) = some (j, SendKind.Hello) := by
  induction joined with
  | nil => simp at hj
  | cons jid rest ih =>
      unfold helloSends
      rw [List.filterMap_cons]
      by_cases hjid : jid = j
      · subst hjid
        rw [if_pos hg]
        simp [List.find?_cons]
      · rcases List.mem_cons.mp hj with h1 | h2
        · exact absurd h1.symm hjid
        · by_cases hgj : (mapGet ps jid).isSome
          · rw [if_pos hgj]
            have hb : (jid == j) = false := beq_eq_false_iff_ne.mpr hjid
            simp only [List.find?_cons, hb]
            exact ih h2
          · rw [if_neg hgj]
            exact ih h2

/-! ### C9 — Hello is the first message -/

/-- C9 counterexample: a connection that joined this tick together with a
pending name request carrying its id receives the name-result (and, the
always-valid name racing through, the players snapshot) *before* its
`Hello`: the first message addressed to it in the joining tick is
`ValidUsername`, not `Hello`. -/
theorem C9_counterexample :
    (tick false 0 0 0 0 c9State).2.find? (fun s => s.1 == 0)
      = some (0, SendKind.ValidUsername)
    ∧ (tick false 0 0 0 0 c9State).2
      = [(0, SendKind.ValidUsername), (0, SendKind.Players), (0, SendKind.Hello)] := by
  refine ⟨?_, ?_⟩ <;> decide

/-- C9 amended: for a connection that joined this tick (unnamed, present
in the player map), provided no pending name-request of this tick carries
that connection's id in its requester-id field, the first message the
tick sends to it is its `Hello` (the tick-start state having an empty
newly-named set and distinct player keys, as the tick loop guarantees).
A forged or raced name-request naming the joining connection is the only
way any traffic can precede its `Hello`. -/
theorem C9_hello_first_amended (st : ServerState) (rnd : Bool) (x y hue ts j : Nat)
    (p : PlayerOnServer)
    (hsu : st.setUsernameIds = [])
    (hnd : (st.players.map Prod.fst).Nodup)
    (hj : j ∈ st.joinedIds)
    (hp : mapGet st.players j = some p)
    (hpu : p.username = none)
    (hreq : ∀ e ∈ st.requestUsernameIds, e.1 ≠ j) :
    ((tick rnd x y hue ts st).2).find? (fun s => s.1 == j)
      = some (j, SendKind.Hello) := by
  have hups := popStep_unameAt st.poppedBalloonIds st.players st.updatedScorePlayerIds j
  have huss := usernameStep_unameAt_skip st.requestUsernameIds
    (popStep st.poppedBalloonIds st.players st.updatedScorePlayerIds).1 st.setUsernameIds j hreq
  have hj2 : unameAt (usernameStep st.requestUsernameIds
      (popStep st.poppedBalloonIds st.players st.updatedScorePlayerIds).1
      st.setUsernameIds).1 j = some none := by
    rw [huss, hups]
    unfold unameAt
    rw [hp, Option.map_some', hpu]
  have hjsome : (mapGet (usernameStep st.requestUsernameIds
      (popStep st.poppedBalloonIds st.players st.updatedScorePlayerIds).1
      st.setUsernameIds).1 j).isSome = true := by
    unfold unameAt at hj2
    cases hmg : mapGet (usernameStep st.requestUsernameIds
      (popStep st.poppedBalloonIds st.players st.updatedScorePlayerIds).1
      st.setUsernameIds).1 j with
    | none => rw [hmg] at hj2; simp at hj2
    | some q => rfl
  have hnot2 : ¬ namedKey (usernameStep st.requestUsernameIds
      (popStep st.poppedBalloonIds st.players st.updatedScorePlayerIds).1
      st.setUsernameIds).1 j := by
    rintro ⟨u, hu⟩
    rw [hj2] at hu
    simp at hu
  have hnot0 : ¬ namedKey st.players j := not_namedKey_of_unnamed _ j p hp hpu
  have hkeys2 : (((usernameStep st.requestUsernameIds
      (popStep st.poppedBalloonIds st.players st.updatedScorePlayerIds).1
      st.setUsernameIds).1).map Prod.fst).Nodup := by
    rw [usernameStep_keys, popStep_keys]; exact hnd
  have h1 : ∀ s ∈ (popStep st.poppedBalloonIds st.players st.updatedScorePlayerIds).2.2,
      s.1 ≠ j := by
    intro s hs hsj
    obtain ⟨r1, k1⟩ := s
    rcases popStep_sends _ _ _ r1 k1 hnd hs with ⟨_, hn⟩
    exact hnot0 (by rw [← hsj]; exact hn)
  have h2 : ∀ s ∈ (usernameStep st.requestUsernameIds
      (popStep st.poppedBalloonIds st.players st.updatedScorePlayerIds).1
      st.setUsernameIds).2.2, s.1 ≠ j := by
    intro s hs hsj
    obtain ⟨r1, k1⟩ := s
    rcases usernameStep_sends _ _ _ r1 k1 hs with ⟨_, e, hmem, he⟩
    exact hreq e hmem (he.trans hsj)
  have h3 : ∀ s ∈ snapshotSends (usernameStep st.requestUsernameIds
      (popStep st.poppedBalloonIds st.players st.updatedScorePlayerIds).1
      st.setUsernameIds).1
      (usernameStep st.requestUsernameIds
      (popStep st.poppedBalloonIds st.players st.updatedScorePlayerIds).1
      st.setUsernameIds).2.1, s.1 ≠ j := by
    intro s hs hsj
    obtain ⟨r1, k1⟩ := s
    rcases snapshotSends_mem _ _ r1 k1 hs with ⟨_, hrsu⟩ | ⟨_, e, hm, he1, he2⟩
    · rcases usernameStep_su_mem _ _ _ r1 hrsu with hin | hn
      · rw [hsu] at hin; simp at hin
      · exact hnot2 (by rw [← hsj]; exact hn)
    · refine hnot2 (by rw [← hsj, ← he1]; exact entry_named_namedKey _ e hm he2 hkeys2)
  have h4 : ∀ s ∈ scoreSends (usernameStep st.requestUsernameIds
      (popStep st.poppedBalloonIds st.players st.updatedScorePlayerIds).1
      st.setUsernameIds).1
      (popStep st.poppedBalloonIds st.players st.updatedScorePlayerIds).2.1, s.1 ≠ j := by
    intro s hs hsj
    obtain ⟨r1, k1⟩ := s
    rcases scoreSends_mem _ _ r1 k1 hs with ⟨_, e, hm, he1, he2⟩
    exact hnot2 (by rw [← hsj, ← he1]; exact entry_named_namedKey _ e hm he2 hkeys2)
  have h5 := helloSends_find (usernameStep st.requestUsernameIds
      (popStep st.poppedBalloonIds st.players st.updatedScorePlayerIds).1
      st.setUsernameIds).1 st.joinedIds j hj hjsome
  simp only [tick]
  simp only [List.find?_append]
  rw [find?_recipient_none _ j h1, Option.none_or,
    find?_recipient_none _ j h2, Option.none_or,
    find?_recipient_none _ j h3, Option.none_or,
    find?_recipient_none _ j h4, Option.none_or,
    h5]
  rfl

/-- C9 witness: the amended theorem applied at the reachable state of a
single fresh join with no pending name request — the first message sent
to the joining connection is its `Hello`. -/
theorem C9_hello_first_amended_witness :
    ((tick false 0 0 0 0 c9WitnessState).2).find? (fun s => s.1 == 0)
      = some (0, SendKind.Hello) :=
  C9_hello_first_amended c9WitnessState false 0 0 0 0 0
    { id := 0, username := none, score := 0 }
    (by decide) (by decide) (by decide) (by decide) (by decide) (by decide)
